import Mathlib

/-!
# Verification of the chirp protocol core (libchirp)

A shallow embedding of the claim-relevant parts of the C source:
serializer, buffer pool, reader state machine (WAIT/SLOT states),
writer (serial assignment, queue dispatcher, probe, send entry point),
connection shutdown and chirp identity initialisation.

Modelling conventions:
* Machine integers (`uint8_t`/`uint16_t`/`uint32_t`) are `Nat` with explicit
  `% 2^w` where the C code can overflow or truncate.
* Byte buffers are `List Nat` in network order (each entry a byte value).
* C pointers that only serve as identities are modelled as `Option Nat` ids;
  `NULL` is `none`.
* The intrusive FIFO queues (`qs_enqueue_m`/`qs_dequeue_m`, a circular
  singly-linked list with tail pointer) are modelled as `List` with the FIFO
  head first: `enqueue` appends at the tail, `dequeue` takes the head, exactly
  the behaviour of the C macros.  A message's `_next == NULL` (member of no
  queue) corresponds to non-membership in the queues it can be put on.
* I/O effects (libuv writes, timers, user callbacks) are modelled as explicit
  event lists in the order the C code issues them.
-/

/-! ## Serializer (`ch_sr_*`)

Wire layouts from `CH_SR_WIRE_MESSAGE_LAYOUT` / `CH_SR_HANDSHAKE_LAYOUT`:
* wire message (27 bytes): `identity:16B | serial:u32 | type:u8 |
  header_len:u16 | data_len:u32`, all integers big endian (network order).
* handshake (18 bytes): `port:u16 | identity:16B`.
-/

/-- `CH_SR_WIRE_MESSAGE_SIZE` -/
def CH_SR_WIRE_MESSAGE_SIZE : Nat := 27

/-- `CH_SR_HANDSHAKE_SIZE` -/
def CH_SR_HANDSHAKE_SIZE : Nat := 18

/-- `CH_ID_SIZE` -/
def CH_ID_SIZE : Nat := 16

/-- `htons`: the two bytes of a `uint16_t` in network (big-endian) order. -/
def htons (x : Nat) : List Nat := [x / 2 ^ 8 % 256, x % 256]

/-- `htonl`: the four bytes of a `uint32_t` in network (big-endian) order. -/
def htonl (x : Nat) : List Nat :=
  [x / 2 ^ 24 % 256, x / 2 ^ 16 % 256, x / 2 ^ 8 % 256, x % 256]

/-- `ntohs` on two bytes read from the buffer. -/
def ntohs (b0 b1 : Nat) : Nat := b0 * 2 ^ 8 + b1

/-- `ntohl` on four bytes read from the buffer. -/
def ntohl (b0 b1 b2 b3 : Nat) : Nat :=
  b0 * 2 ^ 24 + b1 * 2 ^ 16 + b2 * 2 ^ 8 + b3

/-- The claim-relevant fields of `ch_message_t`.  `identity`,
`remote_identity` and `address` are byte arrays; `_pool` is a pointer
modelled as a pool id; `_send_cb` is modelled by whether a callback is
attached. -/
structure ch_message where
  identity : List Nat := List.replicate 16 0
  serial : Nat := 0
  type : Nat := 0
  header_len : Nat := 0
  data_len : Nat := 0
  header : List Nat := []
  data : List Nat := []
  ip_protocol : Nat := 0
  address : List Nat := List.replicate 16 0
  port : Nat := 0
  remote_identity : List Nat := List.replicate 16 0
  has_send_cb : Bool := false
  _flags : Nat := 0
  _slot : Nat := 0
  _pool : Option Nat := none
  deriving Repr, DecidableEq

/-- The zero `ch_message_t` produced by `memset(msg, 0, sizeof(*msg))`. -/
def ch_msg_zero : ch_message :=
  { identity := List.replicate 16 0
    serial := 0, type := 0, header_len := 0, data_len := 0
    header := [], data := []
    ip_protocol := 0, address := List.replicate 16 0, port := 0
    remote_identity := List.replicate 16 0
    has_send_cb := false, _flags := 0, _slot := 0, _pool := none }

instance : Inhabited ch_message := ⟨ch_msg_zero⟩

/-- `ch_sr_handshake_t`. -/
structure ch_sr_handshake where
  port : Nat
  identity : List Nat
  deriving Repr, DecidableEq

/-- `ch_sr_msg_to_buf`: pack `identity`, `msg_serial`, `type`, `header_len`,
`data_len` at the fixed offsets of `CH_SR_WIRE_MESSAGE_LAYOUT` in network
byte order.  The `% 2^w` reflect the C field widths (`uint8_t serial` is a
`uint32_t` parameter, `type` a `uint8_t`, `header_len` a `uint16_t`,
`data_len` a `uint32_t`). -/
def ch_sr_msg_to_buf (msg : ch_message) (msg_serial : Nat) : List Nat :=
  msg.identity ++ htonl (msg_serial % 2 ^ 32) ++ [msg.type % 2 ^ 8] ++
    htons (msg.header_len % 2 ^ 16) ++ htonl (msg.data_len % 2 ^ 32)

/-- `ch_sr_buf_to_msg`: decode the 27-byte wire header into `msg`, setting
exactly the fields the C function sets and leaving the rest of the target
message unchanged. -/
def ch_sr_buf_to_msg (buf : List Nat) (msg : ch_message) : ch_message :=
  { msg with
    identity := buf.take CH_ID_SIZE
    serial := ntohl (buf.getD 16 0) (buf.getD 17 0) (buf.getD 18 0) (buf.getD 19 0)
    type := buf.getD 20 0
    header_len := ntohs (buf.getD 21 0) (buf.getD 22 0)
    data_len := ntohl (buf.getD 23 0) (buf.getD 24 0) (buf.getD 25 0) (buf.getD 26 0) }

/-- `ch_sr_hs_to_buf`: pack `port` (network order) and the 16-byte identity. -/
def ch_sr_hs_to_buf (hs : ch_sr_handshake) : List Nat :=
  htons (hs.port % 2 ^ 16) ++ hs.identity

/-- `ch_sr_buf_to_hs`: decode port and identity from an 18-byte buffer. -/
def ch_sr_buf_to_hs (buf : List Nat) : ch_sr_handshake :=
  { port := ntohs (buf.getD 0 0) (buf.getD 1 0)
    identity := (buf.drop 2).take CH_ID_SIZE }

theorem htonl_length (x : Nat) : (htonl x).length = 4 := rfl

theorem htons_length (x : Nat) : (htons x).length = 2 := rfl

theorem ntohl_htonl (x : Nat) (h : x < 2 ^ 32) :
    ntohl ((htonl x).getD 0 0) ((htonl x).getD 1 0) ((htonl x).getD 2 0)
      ((htonl x).getD 3 0) = x := by
  simp only [htonl, ntohl, List.getD_cons_zero, List.getD_cons_succ]
  omega

theorem ntohs_htons (x : Nat) (h : x < 2 ^ 16) :
    ntohs ((htons x).getD 0 0) ((htons x).getD 1 0) = x := by
  simp only [htons, ntohs, List.getD_cons_zero, List.getD_cons_succ]
  omega

/-- C2: Round-trip framing.  Decoding the 27-byte buffer written by
`ch_sr_msg_to_buf` recovers identity, serial, type, header_len and data_len
exactly (into any target message), and decoding the 18-byte buffer written
by `ch_sr_hs_to_buf` recovers the port and the 16-byte identity exactly;
both encoders produce buffers of exactly the protocol-defining sizes.
The hypotheses are the C field-width invariants. -/
theorem sr_roundtrip (msg tgt : ch_message) (s : Nat) (hs : ch_sr_handshake)
    (hid : msg.identity.length = 16) (hser : s < 2 ^ 32) (hty : msg.type < 2 ^ 8)
    (hhl : msg.header_len < 2 ^ 16) (hdl : msg.data_len < 2 ^ 32)
    (hhsid : hs.identity.length = 16) (hport : hs.port < 2 ^ 16) :
    (ch_sr_msg_to_buf msg s).length = CH_SR_WIRE_MESSAGE_SIZE ∧
    (ch_sr_buf_to_msg (ch_sr_msg_to_buf msg s) tgt).identity = msg.identity ∧
    (ch_sr_buf_to_msg (ch_sr_msg_to_buf msg s) tgt).serial = s ∧
    (ch_sr_buf_to_msg (ch_sr_msg_to_buf msg s) tgt).type = msg.type ∧
    (ch_sr_buf_to_msg (ch_sr_msg_to_buf msg s) tgt).header_len = msg.header_len ∧
    (ch_sr_buf_to_msg (ch_sr_msg_to_buf msg s) tgt).data_len = msg.data_len ∧
    (ch_sr_hs_to_buf hs).length = CH_SR_HANDSHAKE_SIZE ∧
    ch_sr_buf_to_hs (ch_sr_hs_to_buf hs) = hs := by
  obtain ⟨i0, i1, i2, i3, i4, i5, i6, i7, i8, i9, i10, i11, i12, i13, i14, i15, hnil⟩ :
      ∃ a b c d e f g h i j k l m n o p, msg.identity =
        [a, b, c, d, e, f, g, h, i, j, k, l, m, n, o, p] := by
    match hidm : msg.identity, hid with
    | [a, b, c, d, e, f, g, h, i, j, k, l, m, n, o, p], _ =>
      exact ⟨a, b, c, d, e, f, g, h, i, j, k, l, m, n, o, p, rfl⟩
  obtain ⟨j0, j1, j2, j3, j4, j5, j6, j7, j8, j9, j10, j11, j12, j13, j14, j15, hnil2⟩ :
      ∃ a b c d e f g h i j k l m n o p, hs.identity =
        [a, b, c, d, e, f, g, h, i, j, k, l, m, n, o, p] := by
    match hidm : hs.identity, hhsid with
    | [a, b, c, d, e, f, g, h, i, j, k, l, m, n, o, p], _ =>
      exact ⟨a, b, c, d, e, f, g, h, i, j, k, l, m, n, o, p, rfl⟩
  refine ⟨?_, ?_, ?_, ?_, ?_, ?_, ?_, ?_⟩
  · simp [ch_sr_msg_to_buf, hnil, htonl, htons, CH_SR_WIRE_MESSAGE_SIZE]
  · simp [ch_sr_msg_to_buf, ch_sr_buf_to_msg, hnil, htonl, htons, CH_ID_SIZE]
  · simp only [ch_sr_msg_to_buf, ch_sr_buf_to_msg, hnil, htonl, htons]
    simp only [List.cons_append, List.nil_append, List.getD_cons_succ,
      List.getD_cons_zero, ntohl]
    omega
  · simp only [ch_sr_msg_to_buf, ch_sr_buf_to_msg, hnil, htonl, htons]
    simp only [List.cons_append, List.nil_append, List.getD_cons_succ,
      List.getD_cons_zero]
    omega
  · simp only [ch_sr_msg_to_buf, ch_sr_buf_to_msg, hnil, htonl, htons]
    simp only [List.cons_append, List.nil_append, List.getD_cons_succ,
      List.getD_cons_zero, ntohs]
    omega
  · simp only [ch_sr_msg_to_buf, ch_sr_buf_to_msg, hnil, htonl, htons]
    simp only [List.cons_append, List.nil_append, List.getD_cons_succ,
      List.getD_cons_zero, ntohl]
    omega
  · simp [ch_sr_hs_to_buf, hnil2, htons, CH_SR_HANDSHAKE_SIZE]
  · simp only [ch_sr_hs_to_buf, ch_sr_buf_to_hs, hnil2, htons]
    simp only [List.cons_append, List.nil_append, List.getD_cons_succ,
      List.getD_cons_zero]
    refine congrArg₂ ch_sr_handshake.mk ?_ ?_
    · simp only [ntohs]; omega
    · simp [hnil2, CH_ID_SIZE]

/-- Witness for `sr_roundtrip` at a concrete message and handshake. -/
theorem sr_roundtrip_witness :
    (ch_sr_msg_to_buf
        { ch_msg_zero with
          identity := [1, 2, 3, 4, 5, 6, 7, 8, 9, 10, 11, 12, 13, 14, 15, 16]
          type := 5, header_len := 258, data_len := 70000 }
        4000000000).length = CH_SR_WIRE_MESSAGE_SIZE ∧
    (ch_sr_buf_to_msg
        (ch_sr_msg_to_buf
          { ch_msg_zero with
            identity := [1, 2, 3, 4, 5, 6, 7, 8, 9, 10, 11, 12, 13, 14, 15, 16]
            type := 5, header_len := 258, data_len := 70000 }
          4000000000) ch_msg_zero).serial = 4000000000 ∧
    ch_sr_buf_to_hs (ch_sr_hs_to_buf
        { port := 2998,
          identity := [1, 2, 3, 4, 5, 6, 7, 8, 9, 10, 11, 12, 13, 14, 15, 16] }) =
      { port := 2998,
        identity := [1, 2, 3, 4, 5, 6, 7, 8, 9, 10, 11, 12, 13, 14, 15, 16] } := by
  have h := sr_roundtrip
    { ch_msg_zero with
      identity := [1, 2, 3, 4, 5, 6, 7, 8, 9, 10, 11, 12, 13, 14, 15, 16]
      type := 5, header_len := 258, data_len := 70000 }
    ch_msg_zero 4000000000
    { port := 2998,
      identity := [1, 2, 3, 4, 5, 6, 7, 8, 9, 10, 11, 12, 13, 14, 15, 16] }
    (by decide) (by decide) (by decide) (by decide) (by decide) (by decide)
    (by decide)
  exact ⟨h.1, h.2.2.1, h.2.2.2.2.2.2.2⟩

/-! ## BufferPool (`ch_bf_*`)

`ch_buffer_pool_t` tracks free slots in a 32-bit mask where bit `31 - id`
represents slot `id` (see `ch_bf_release`: `1 << (31 - id)`); `ch_bf_acquire`
picks the most significant set bit of the mask and uses slot `32 - msb`. -/

/-- `CH_MSG_HAS_SLOT` message flag. -/
def CH_MSG_HAS_SLOT : Nat := 1 <<< 5

/-- The `bval` lookup table of `ch_msb32`. -/
def ch_msb32_bval : List Nat := [0, 1, 2, 2, 3, 3, 3, 3, 4, 4, 4, 4, 4, 4, 4, 4]

/-- `ch_msb32`: position (1-based) of the most significant set bit of a
`uint32_t`, computed by three mask-and-shift steps plus a nibble table.
The C mutation of `r`/`x` is written as one binding per assignment. -/
def ch_msb32 (x : Nat) : Nat :=
  let r1 := if x &&& 0xFFFF0000 ≠ 0 then 0 + 16 else 0
  let x1 := if x &&& 0xFFFF0000 ≠ 0 then x >>> 16 else x
  let r2 := if x1 &&& 0x0000FF00 ≠ 0 then r1 + 8 else r1
  let x2 := if x1 &&& 0x0000FF00 ≠ 0 then x1 >>> 8 else x1
  let r3 := if x2 &&& 0x000000F0 ≠ 0 then r2 + 4 else r2
  let x3 := if x2 &&& 0x000000F0 ≠ 0 then x2 >>> 4 else x2
  r3 + ch_msb32_bval.getD x3 0

/-- `ch_bf_slot_t`. -/
structure ch_bf_slot where
  id : Nat := 0
  used : Bool := false
  msg : ch_message := ch_msg_zero
  deriving Repr, DecidableEq, Inhabited

/-- `ch_buffer_pool_t`.  The `conn` back pointer is omitted (not used by the
claims); `pool_id` is the ghost pointer identity stored into `msg._pool`. -/
structure ch_buffer_pool where
  pool_id : Nat := 0
  refcnt : Nat := 1
  used_slots : Nat := 0
  max_slots : Nat := 0
  free_slots : Nat := 0
  slots : List ch_bf_slot := []
  deriving Repr, DecidableEq, Inhabited

/-- `ch_bf_init` (the successful path): `used_slots = 0`,
`free_slots = 0xFFFFFFFF << (32 - max_slots)` (a `uint32_t` shift, hence
`% 2^32`), slot `i` gets id `i` and is unused. -/
def ch_bf_init (pool_id : Nat) (max_slots : Nat) : ch_buffer_pool :=
  { pool_id := pool_id
    refcnt := 1
    used_slots := 0
    max_slots := max_slots
    free_slots := 0xFFFFFFFF <<< (32 - max_slots) % 2 ^ 32
    slots := (List.range max_slots).map fun i =>
      { id := i, used := false, msg := ch_msg_zero } }

/-- `ch_bf_acquire`: if a slot is available, take the most significant set
bit `free` of the mask, clear it (`~(1 << (free - 1))` on a `uint32_t` is
`(2^32 - 1) ^^^ 2^(free-1)` for `1 ≤ free ≤ 32`), use slot `32 - free`,
mark it used, zero its message and set `_slot`/`_pool`/`_flags`.  Returns
`none` when `used_slots` is not below `max_slots`. -/
def ch_bf_acquire (pool : ch_buffer_pool) : Option ch_bf_slot × ch_buffer_pool :=
  if pool.used_slots < pool.max_slots then
    let used1 := pool.used_slots + 1
    let free := ch_msb32 pool.free_slots
    let free_slots1 := pool.free_slots &&& ((2 ^ 32 - 1) ^^^ (1 <<< (free - 1)))
    let idx := 32 - free
    let slot0 := pool.slots.getD idx default
    let slot1 := { slot0 with
      used := true
      msg := { ch_msg_zero with
        _slot := slot0.id
        _pool := some pool.pool_id
        _flags := CH_MSG_HAS_SLOT } }
    (some slot1,
      { pool with
        used_slots := used1
        free_slots := free_slots1
        slots := pool.slots.set idx slot1 })
  else (none, pool)

/-- A number whose low `n` bits are zero has every bit below `n` clear. -/
theorem testBit_eq_false_of_mod_two_pow_eq_zero (a n p : Nat)
    (h : a % 2 ^ n = 0) (hp : p < n) : a.testBit p = false := by
  obtain ⟨q, hq⟩ := Nat.dvd_of_mod_eq_zero h
  subst hq
  rw [Nat.testBit_to_div_mod]
  have hsplit : 2 ^ n = 2 ^ p * 2 ^ (n - p) := by
    rw [← pow_add]; congr 1; omega
  have hdiv : 2 ^ n * q / 2 ^ p = 2 ^ (n - p) * q := by
    rw [hsplit, Nat.mul_assoc, Nat.mul_div_cancel_left _ (Nat.pos_pow_of_pos p (by norm_num))]
  rw [hdiv]
  have heven : 2 ^ (n - p) * q = 2 * (2 ^ (n - p - 1) * q) := by
    have h1 : n - p = (n - p - 1) + 1 := by omega
    conv_lhs => rw [h1]
    rw [pow_succ]; ring
  rw [heven, Nat.mul_mod_right]
  rfl

/-- The most significant bit of a nonzero number is set. -/
theorem testBit_log2_self (x : Nat) (hx : x ≠ 0) : x.testBit x.log2 = true := by
  rw [Nat.testBit_to_div_mod]
  have h1 : 2 ^ x.log2 ≤ x := Nat.log2_self_le hx
  have h2 : x < 2 ^ (x.log2 + 1) := Nat.lt_log2_self
  have hdiv : x / 2 ^ x.log2 = 1 := by
    apply Nat.div_eq_of_lt_le (by simpa using h1)
    calc x < 2 ^ (x.log2 + 1) := h2
    _ = (1 + 1) * 2 ^ x.log2 := by ring
  simp [hdiv]

/-- A conjunction of bits `n .. n+k-1` tests zero exactly when the number is
below `2^n`, provided it is below `2^(n+k)`. -/
theorem and_ones_shiftLeft_eq_zero_iff (x n k : Nat) (hx : x < 2 ^ (n + k)) :
    x &&& ((2 ^ k - 1) <<< n) = 0 ↔ x < 2 ^ n := by
  constructor
  · intro h
    by_contra hlt
    have hxe : x ≠ 0 := by
      intro h0; exact hlt (by simp [h0, Nat.pos_pow_of_pos])
    have hlo : n ≤ x.log2 := (Nat.le_log2 hxe).mpr (Nat.le_of_not_lt hlt)
    have hhi : x.log2 < n + k := (Nat.log2_lt hxe).mpr hx
    have hbit : (x &&& ((2 ^ k - 1) <<< n)).testBit x.log2 = true := by
      rw [Nat.testBit_and, testBit_log2_self x hxe, Nat.testBit_shiftLeft,
        Nat.testBit_two_pow_sub_one]
      simp only [Bool.true_and]
      rw [decide_eq_true (by omega : x.log2 ≥ n), decide_eq_true (by omega : x.log2 - n < k)]
      rfl
    rw [h] at hbit
    simp [Nat.zero_testBit] at hbit
  · intro h
    apply Nat.eq_of_testBit_eq
    intro i
    rw [Nat.testBit_and, Nat.zero_testBit, Nat.testBit_shiftLeft]
    rcases Nat.lt_or_ge i n with hi | hi
    · rw [decide_eq_false (by omega : ¬ i ≥ n)]
      simp
    · have : x.testBit i = false :=
        Nat.testBit_lt_two_pow (lt_of_lt_of_le h (Nat.pow_le_pow_right (by norm_num) hi))
      simp [this]

/-- The nibble table is the 1-based most significant bit for values `1..15`. -/
theorem ch_msb32_bval_spec : ∀ y : Fin 16, 0 < y.val →
    0 < ch_msb32_bval.getD y.val 0 ∧ ch_msb32_bval.getD y.val 0 ≤ 4 ∧
    2 ^ (ch_msb32_bval.getD y.val 0 - 1) ≤ y.val ∧
    y.val < 2 ^ ch_msb32_bval.getD y.val 0 := by decide

/-- Final step of the `ch_msb32` analysis: if the remaining nibble is
`x / 2^r ∈ [1, 15]`, then `r + bval[x / 2^r]` brackets `x` between
consecutive powers of two. -/
theorem ch_msb32_branch (x r : Nat) (h1 : 1 ≤ x / 2 ^ r) (h16 : x / 2 ^ r < 16) :
    0 < r + ch_msb32_bval.getD (x / 2 ^ r) 0 ∧
    r + ch_msb32_bval.getD (x / 2 ^ r) 0 ≤ r + 4 ∧
    2 ^ (r + ch_msb32_bval.getD (x / 2 ^ r) 0 - 1) ≤ x ∧
    x < 2 ^ (r + ch_msb32_bval.getD (x / 2 ^ r) 0) := by
  obtain ⟨hb0, hb4, hbl, hbu⟩ := ch_msb32_bval_spec ⟨x / 2 ^ r, h16⟩ (by simpa using h1)
  simp only [Fin.val_mk] at hb0 hb4 hbl hbu
  set b := ch_msb32_bval.getD (x / 2 ^ r) 0 with hb
  have hxl : x / 2 ^ r * 2 ^ r ≤ x := Nat.div_mul_le_self x (2 ^ r)
  have hxu : x < (x / 2 ^ r + 1) * 2 ^ r := by
    have := Nat.div_add_mod x (2 ^ r)
    have hmod : x % 2 ^ r < 2 ^ r := Nat.mod_lt x (Nat.pos_pow_of_pos r (by norm_num))
    nlinarith [Nat.div_add_mod x (2 ^ r)]
  refine ⟨by omega, by omega, ?_, ?_⟩
  · have : 2 ^ (r + b - 1) = 2 ^ (b - 1) * 2 ^ r := by
      rw [← pow_add]; congr 1; omega
    rw [this]
    calc 2 ^ (b - 1) * 2 ^ r ≤ x / 2 ^ r * 2 ^ r :=
          Nat.mul_le_mul_right _ hbl
    _ ≤ x := hxl
  · have : 2 ^ (r + b) = 2 ^ b * 2 ^ r := by rw [← pow_add]; congr 1; omega
    rw [this]
    calc x < (x / 2 ^ r + 1) * 2 ^ r := hxu
    _ ≤ 2 ^ b * 2 ^ r := Nat.mul_le_mul_right _ (by omega)

theorem and_hi16_iff (x : Nat) (hx : x < 2 ^ 32) :
    x &&& 0xFFFF0000 = 0 ↔ x < 2 ^ 16 := by
  have hm : ((2 ^ 16 - 1 : Nat) <<< 16) = 0xFFFF0000 := by decide
  rw [← hm]
  exact and_ones_shiftLeft_eq_zero_iff x 16 16 (by omega)

theorem and_hi8_iff (x : Nat) (hx : x < 2 ^ 16) :
    x &&& 0x0000FF00 = 0 ↔ x < 2 ^ 8 := by
  have hm : ((2 ^ 8 - 1 : Nat) <<< 8) = 0x0000FF00 := by decide
  rw [← hm]
  exact and_ones_shiftLeft_eq_zero_iff x 8 8 (by omega)

theorem and_hi4_iff (x : Nat) (hx : x < 2 ^ 8) :
    x &&& 0x000000F0 = 0 ↔ x < 2 ^ 4 := by
  have hm : ((2 ^ 4 - 1 : Nat) <<< 4) = 0x000000F0 := by decide
  rw [← hm]
  exact and_ones_shiftLeft_eq_zero_iff x 4 4 (by omega)

/-- `ch_msb32` computes the 1-based position of the most significant set bit
of a nonzero `uint32_t`: `2^(msb-1) ≤ x < 2^msb` and `1 ≤ msb ≤ 32`. -/
theorem ch_msb32_spec (x : Nat) (h0 : 0 < x) (h32 : x < 2 ^ 32) :
    0 < ch_msb32 x ∧ ch_msb32 x ≤ 32 ∧
    2 ^ (ch_msb32 x - 1) ≤ x ∧ x < 2 ^ ch_msb32 x := by
  simp only [ch_msb32]
  split_ifs with h1 h2 h3 h4 h5 h6 h7
  · -- 2^16 ≤ x, 2^8 ≤ x >> 16, 2^4 ≤ x >> 24
    have A1 : 2 ^ 16 ≤ x := Nat.le_of_not_lt fun hlt => h1 ((and_hi16_iff x h32).mpr hlt)
    have hx1 : x >>> 16 = x / 2 ^ 16 := Nat.shiftRight_eq_div_pow x 16
    have A2 : 2 ^ 8 ≤ x / 2 ^ 16 := Nat.le_of_not_lt fun hlt =>
      h2 (by rw [hx1]; exact (and_hi8_iff _ (by omega)).mpr hlt)
    have hx2 : x >>> 16 >>> 8 = x / 2 ^ 24 := by
      simp only [Nat.shiftRight_eq_div_pow, Nat.div_div_eq_div_mul]; norm_num
    have A3 : 2 ^ 4 ≤ x / 2 ^ 24 := Nat.le_of_not_lt fun hlt =>
      h3 (by rw [hx2]; exact (and_hi4_iff _ (by omega)).mpr hlt)
    have hx3 : x >>> 16 >>> 8 >>> 4 = x / 2 ^ 28 := by
      simp only [Nat.shiftRight_eq_div_pow, Nat.div_div_eq_div_mul]; norm_num
    rw [hx3, show (0 + 16 + 8 + 4 : Nat) = 28 from rfl]
    obtain ⟨B0, B1, B2, B3⟩ := ch_msb32_branch x 28 (by omega) (by omega)
    exact ⟨B0, by omega, B2, B3⟩
  · -- 2^16 ≤ x, 2^8 ≤ x >> 16, x >> 24 < 2^4
    have A1 : 2 ^ 16 ≤ x := Nat.le_of_not_lt fun hlt => h1 ((and_hi16_iff x h32).mpr hlt)
    have hx1 : x >>> 16 = x / 2 ^ 16 := Nat.shiftRight_eq_div_pow x 16
    have A2 : 2 ^ 8 ≤ x / 2 ^ 16 := Nat.le_of_not_lt fun hlt =>
      h2 (by rw [hx1]; exact (and_hi8_iff _ (by omega)).mpr hlt)
    have hx2 : x >>> 16 >>> 8 = x / 2 ^ 24 := by
      simp only [Nat.shiftRight_eq_div_pow, Nat.div_div_eq_div_mul]; norm_num
    have A3 : x / 2 ^ 24 < 2 ^ 4 := by
      have := (and_hi4_iff (x / 2 ^ 24) (by omega)).mp (by rw [← hx2]; exact not_not.mp h3)
      omega
    rw [hx2, show (0 + 16 + 8 : Nat) = 24 from rfl]
    obtain ⟨B0, B1, B2, B3⟩ := ch_msb32_branch x 24 (by omega) (by omega)
    exact ⟨B0, by omega, B2, B3⟩
  · -- 2^16 ≤ x, x >> 16 < 2^8, 2^4 ≤ x >> 16
    have A1 : 2 ^ 16 ≤ x := Nat.le_of_not_lt fun hlt => h1 ((and_hi16_iff x h32).mpr hlt)
    have hx1 : x >>> 16 = x / 2 ^ 16 := Nat.shiftRight_eq_div_pow x 16
    have A2 : x / 2 ^ 16 < 2 ^ 8 := by
      have := (and_hi8_iff (x / 2 ^ 16) (by omega)).mp (by rw [← hx1]; exact not_not.mp h2)
      omega
    have A3 : 2 ^ 4 ≤ x / 2 ^ 16 := Nat.le_of_not_lt fun hlt =>
      h4 (by rw [hx1]; exact (and_hi4_iff _ (by omega)).mpr hlt)
    have hx3 : x >>> 16 >>> 4 = x / 2 ^ 20 := by
      simp only [Nat.shiftRight_eq_div_pow, Nat.div_div_eq_div_mul]; norm_num
    rw [hx3, show (0 + 16 + 4 : Nat) = 20 from rfl]
    obtain ⟨B0, B1, B2, B3⟩ := ch_msb32_branch x 20 (by omega) (by omega)
    exact ⟨B0, by omega, B2, B3⟩
  · -- 2^16 ≤ x, x >> 16 < 2^4
    have A1 : 2 ^ 16 ≤ x := Nat.le_of_not_lt fun hlt => h1 ((and_hi16_iff x h32).mpr hlt)
    have hx1 : x >>> 16 = x / 2 ^ 16 := Nat.shiftRight_eq_div_pow x 16
    have A2 : x / 2 ^ 16 < 2 ^ 8 := by
      have := (and_hi8_iff (x / 2 ^ 16) (by omega)).mp (by rw [← hx1]; exact not_not.mp h2)
      omega
    have A3 : x / 2 ^ 16 < 2 ^ 4 := by
      have := (and_hi4_iff (x / 2 ^ 16) (by omega)).mp (by rw [← hx1]; exact not_not.mp h4)
      omega
    rw [hx1, show (0 + 16 : Nat) = 16 from rfl]
    obtain ⟨B0, B1, B2, B3⟩ := ch_msb32_branch x 16 (by omega) (by omega)
    exact ⟨B0, by omega, B2, B3⟩
  · -- x < 2^16, 2^8 ≤ x, 2^4 ≤ x >> 8
    have A1 : x < 2 ^ 16 := by
      have := (and_hi16_iff x h32).mp (not_not.mp h1); omega
    have A2 : 2 ^ 8 ≤ x := Nat.le_of_not_lt fun hlt => h5 ((and_hi8_iff x A1).mpr hlt)
    have hx1 : x >>> 8 = x / 2 ^ 8 := Nat.shiftRight_eq_div_pow x 8
    have A3 : 2 ^ 4 ≤ x / 2 ^ 8 := Nat.le_of_not_lt fun hlt =>
      h6 (by rw [hx1]; exact (and_hi4_iff _ (by omega)).mpr hlt)
    have hx3 : x >>> 8 >>> 4 = x / 2 ^ 12 := by
      simp only [Nat.shiftRight_eq_div_pow, Nat.div_div_eq_div_mul]; norm_num
    rw [hx3, show (0 + 8 + 4 : Nat) = 12 from rfl]
    obtain ⟨B0, B1, B2, B3⟩ := ch_msb32_branch x 12 (by omega) (by omega)
    exact ⟨B0, by omega, B2, B3⟩
  · -- x < 2^16, 2^8 ≤ x, x >> 8 < 2^4
    have A1 : x < 2 ^ 16 := by
      have := (and_hi16_iff x h32).mp (not_not.mp h1); omega
    have A2 : 2 ^ 8 ≤ x := Nat.le_of_not_lt fun hlt => h5 ((and_hi8_iff x A1).mpr hlt)
    have hx1 : x >>> 8 = x / 2 ^ 8 := Nat.shiftRight_eq_div_pow x 8
    have A3 : x / 2 ^ 8 < 2 ^ 4 := by
      have := (and_hi4_iff (x / 2 ^ 8) (by omega)).mp (by rw [← hx1]; exact not_not.mp h6)
      omega
    rw [hx1, show (0 + 8 : Nat) = 8 from rfl]
    obtain ⟨B0, B1, B2, B3⟩ := ch_msb32_branch x 8 (by omega) (by omega)
    exact ⟨B0, by omega, B2, B3⟩
  · -- x < 2^8, 2^4 ≤ x
    have A1 : x < 2 ^ 16 := by
      have := (and_hi16_iff x h32).mp (not_not.mp h1); omega
    have A2 : x < 2 ^ 8 := by
      have := (and_hi8_iff x A1).mp (not_not.mp h5); omega
    have A3 : 2 ^ 4 ≤ x := Nat.le_of_not_lt fun hlt => h7 ((and_hi4_iff x A2).mpr hlt)
    have hx1 : x >>> 4 = x / 2 ^ 4 := Nat.shiftRight_eq_div_pow x 4
    rw [hx1, show (0 + 4 : Nat) = 4 from rfl]
    obtain ⟨B0, B1, B2, B3⟩ := ch_msb32_branch x 4 (by omega) (by omega)
    exact ⟨B0, by omega, B2, B3⟩
  · -- x < 2^4
    have A1 : x < 2 ^ 16 := by
      have := (and_hi16_iff x h32).mp (not_not.mp h1); omega
    have A2 : x < 2 ^ 8 := by
      have := (and_hi8_iff x A1).mp (not_not.mp h5); omega
    have A3 : x < 2 ^ 4 := by
      have := (and_hi4_iff x A2).mp (not_not.mp h7); omega
    obtain ⟨B0, B1, B2, B3⟩ := ch_msb32_branch x 0 (by simp; omega) (by simp; omega)
    simp only [pow_zero, Nat.div_one] at B0 B1 B2 B3
    exact ⟨by omega, by omega, by simpa using B2, by simpa using B3⟩

/-- Slot `i` is free in the pool mask: bit `31 - i` is set
(cf. `ch_bf_release`: `pool->free_slots |= 1 << (31 - id)`). -/
def slot_is_free (pool : ch_buffer_pool) (i : Nat) : Bool :=
  pool.free_slots.testBit (31 - i)

/-- Modelled from the spec words "returns the highest-indexed free slot":
the largest index `i < max_slots` whose mask bit is set. -/
def spec_highest_free_index (pool : ch_buffer_pool) : Option Nat :=
  ((List.range pool.max_slots).filter (fun i => slot_is_free pool i)).getLast?

/-- Well-formedness of a pool as established by `ch_bf_init` and preserved
by acquire/release: at most 32 slots, the mask is a `uint32_t` whose bits
below `32 - max_slots` stay clear, the mask is nonempty whenever a slot is
unused, and slot `i` of the array carries id `i`. -/
structure ch_bf_wf (pool : ch_buffer_pool) : Prop where
  max_le : pool.max_slots ≤ 32
  used_le : pool.used_slots ≤ pool.max_slots
  mask_lt : pool.free_slots < 2 ^ 32
  mask_lo : pool.free_slots % 2 ^ (32 - pool.max_slots) = 0
  mask_nonzero : pool.used_slots < pool.max_slots → pool.free_slots ≠ 0
  slots_len : pool.slots.length = pool.max_slots
  slots_ids : ∀ i, i < pool.max_slots → (pool.slots.getD i default).id = i

/-- C5 (amended): on a well-formed pool with a free slot, `ch_bf_acquire`
returns the LOWEST-indexed free slot (the most significant set bit of the
mask), marks it used, zeroes its message and sets `_slot`/`_pool`/`_flags`;
it returns `none` exactly when `used_slots = max_slots`. -/
theorem ch_bf_acquire_spec (pool : ch_buffer_pool) (hwf : ch_bf_wf pool) :
    (pool.used_slots < pool.max_slots →
      ∃ slot pool2,
        ch_bf_acquire pool = (some slot, pool2) ∧
        slot.id = 32 - ch_msb32 pool.free_slots ∧
        slot.id < pool.max_slots ∧
        slot_is_free pool slot.id = true ∧
        (∀ j, j < slot.id → slot_is_free pool j = false) ∧
        slot.used = true ∧
        slot.msg = { ch_msg_zero with
                     _slot := slot.id
                     _pool := some pool.pool_id
                     _flags := CH_MSG_HAS_SLOT } ∧
        pool2.used_slots = pool.used_slots + 1 ∧
        pool2.max_slots = pool.max_slots ∧
        pool2.slots = pool.slots.set slot.id slot) ∧
    ((ch_bf_acquire pool).1 = none ↔ pool.used_slots = pool.max_slots) := by
  constructor
  · intro hlt
    have hnz : pool.free_slots ≠ 0 := hwf.mask_nonzero hlt
    obtain ⟨m0, m32, ml, mu⟩ :=
      ch_msb32_spec pool.free_slots (Nat.pos_of_ne_zero hnz) hwf.mask_lt
    set m := ch_msb32 pool.free_slots with hm
    have hbit : pool.free_slots.testBit (m - 1) = true := by
      rw [Nat.testBit_to_div_mod]
      have hdiv : pool.free_slots / 2 ^ (m - 1) = 1 := by
        apply Nat.div_eq_of_lt_le (by simpa using ml)
        have h2 : 2 ^ m = 2 * 2 ^ (m - 1) := by
          conv_lhs => rw [show m = (m - 1) + 1 by omega]
          rw [pow_succ]; ring
        omega
      simp [hdiv]
    have hback : 32 - pool.max_slots ≤ m - 1 := by
      by_contra hc
      have hf : pool.free_slots.testBit (m - 1) = false :=
        testBit_eq_false_of_mod_two_pow_eq_zero _ _ _ hwf.mask_lo (by omega)
      rw [hbit] at hf
      simp at hf
    have hidx : 32 - m < pool.max_slots := by omega
    have hhi : ∀ p, m ≤ p → pool.free_slots.testBit p = false := fun p hp =>
      Nat.testBit_lt_two_pow (lt_of_lt_of_le mu (Nat.pow_le_pow_right (by norm_num) hp))
    have hid0 : (pool.slots.getD (32 - m) default).id = 32 - m :=
      hwf.slots_ids _ hidx
    simp only [ch_bf_acquire, if_pos hlt, ← hm]
    refine ⟨_, _, rfl, ?_, ?_, ?_, ?_, rfl, ?_, rfl, ?_, ?_⟩
    · simpa using hid0
    · simp only [hid0]
      exact hidx
    · simp only [hid0, slot_is_free]
      rw [show 31 - (32 - m) = m - 1 by omega]
      exact hbit
    · intro j hj
      simp only [hid0] at hj
      simp only [slot_is_free]
      exact hhi _ (by omega)
    · simp [hid0]
    · rfl
    · simp only [hid0]
  · by_cases hc : pool.used_slots < pool.max_slots
    · simp only [ch_bf_acquire, if_pos hc]
      constructor
      · intro h; exact absurd h (by simp)
      · intro h; omega
    · simp only [ch_bf_acquire, if_neg hc]
      constructor
      · intro _; have := hwf.used_le; omega
      · intro _; trivial

/-- Witness for `ch_bf_acquire_spec` on a fresh two-slot pool: the acquired
slot is slot 0 and exhaustion does not hold. -/
theorem ch_bf_acquire_spec_witness :
    ∃ slot pool2, ch_bf_acquire (ch_bf_init 7 2) = (some slot, pool2) ∧
      slot.id = 32 - ch_msb32 (ch_bf_init 7 2).free_slots ∧
      slot.used = true := by
  have hwf : ch_bf_wf (ch_bf_init 7 2) :=
    ⟨by decide, by decide, by decide, by decide, by decide, by decide, by decide⟩
  obtain ⟨slot, pool2, heq, hid, _, _, _, hused, _⟩ :=
    (ch_bf_acquire_spec (ch_bf_init 7 2) hwf).1 (by decide)
  exact ⟨slot, pool2, heq, hid, hused⟩

/-- C5 counterexample: on a fresh pool with two free slots, `ch_bf_acquire`
returns slot index 0, while the highest-indexed free slot is 1 - the claim
"returns the highest-indexed free slot" fails. -/
theorem ch_bf_acquire_not_highest :
    (ch_bf_acquire (ch_bf_init 7 2)).1.map ch_bf_slot.id = some 0 ∧
    spec_highest_free_index (ch_bf_init 7 2) = some 1 ∧ (0 : Nat) ≠ 1 := by
  decide

/-! ## Message type bits, flags and error codes -/

/-- `ch_msg_types_t`: `CH_MSG_REQ_ACK`. -/
def CH_MSG_REQ_ACK : Nat := 1 <<< 0

/-- `ch_msg_types_t`: `CH_MSG_ACK`. -/
def CH_MSG_ACK : Nat := 1 <<< 1

/-- `ch_msg_types_t`: `CH_MSG_NOOP`. -/
def CH_MSG_NOOP : Nat := 1 <<< 2

/-- `_flags` bit `CH_MSG_USED`. -/
def CH_MSG_USED : Nat := 1 <<< 2

/-- `_flags` bit `CH_MSG_ACK_RECEIVED`. -/
def CH_MSG_ACK_RECEIVED : Nat := 1 <<< 3

/-- `_flags` bit `CH_MSG_WRITE_DONE`. -/
def CH_MSG_WRITE_DONE : Nat := 1 <<< 4

/-- `_flags` bit `CH_MSG_SEND_ACK`. -/
def CH_MSG_SEND_ACK : Nat := 1 <<< 6

/-- The `ch_error_t` codes the modelled functions produce.  `CH_IN_PRORESS`
is the source's spelling. -/
inductive ch_error where
  | CH_SUCCESS
  | CH_PROTOCOL_ERROR
  | CH_ENOMEM
  | CH_SHUTDOWN
  | CH_QUEUED
  | CH_USED
  | CH_BUSY
  | CH_EMPTY
  | CH_TIMEOUT
  | CH_IN_PRORESS
  | CH_CANNOT_CONNECT
  | CH_MORE
  | CH_UV_ERROR
  deriving Repr, DecidableEq, Inhabited

export ch_error (CH_SUCCESS CH_PROTOCOL_ERROR CH_ENOMEM CH_SHUTDOWN CH_QUEUED
  CH_USED CH_BUSY CH_EMPTY CH_TIMEOUT CH_IN_PRORESS CH_CANNOT_CONNECT CH_MORE
  CH_UV_ERROR)

/-! ## Intrusive FIFO queues (`qs_enqueue_m` / `qs_dequeue_m`)

The C queue is a circular singly-linked list whose handle points at the
tail and whose `next(tail)` is the head; `enqueue` inserts at the tail,
`dequeue` removes the head.  Modelled as a `List` with the head first. -/

/-- `ch_msg_enqueue`: append at the FIFO tail. -/
def ch_msg_enqueue (queue : List ch_message) (msg : ch_message) : List ch_message :=
  queue ++ [msg]

/-- `ch_msg_dequeue`: take the FIFO head, `none` when empty. -/
def ch_msg_dequeue (queue : List ch_message) : Option ch_message × List ch_message :=
  match queue with
  | [] => (none, [])
  | m :: rest => (some m, rest)

/-! ## Writer (`ch_wr_*`) -/

/-- Configuration options used by the modelled code paths.  `REUSE_TIME`
and `TIMEOUT` are `float` seconds in C; the claims involve them only
through `1000 * REUSE_TIME / 4 * 3`, modelled on `Nat` seconds (exact for
integral configurations). -/
structure ch_config where
  REUSE_TIME : Nat := 30
  TIMEOUT : Nat := 5
  SYNCHRONOUS : Bool := false
  MAX_MSG_SIZE : Nat := 104857600
  MAX_SLOTS : Nat := 0
  IDENTITY : List Nat := List.replicate 16 0
  deriving Repr, DecidableEq, Inhabited

/-- The connection state the writer and dispatcher touch: the `CONNECTED` /
`SHUTTING_DOWN` flags, the writer's current message (`writer.msg`) and the
27-byte scratch header (`writer.net_msg`). -/
structure ch_connection where
  connected : Bool := false
  shutting_down : Bool := false
  writer_msg : Option ch_message := none
  net_msg : List Nat := []
  deriving Repr, DecidableEq, Inhabited

/-- `ch_remote_t`: endpoint key, current connection (nullable), reusable
noop, the two FIFO queues, the synchronous-mode in-flight message, the
outbound serial (`uint32_t`), the `CH_RM_CONN_BLOCKED` flag and the
last-activity timestamp. -/
structure ch_remote where
  ip_protocol : Nat := 0
  address : List Nat := List.replicate 16 0
  port : Nat := 0
  conn : Option ch_connection := none
  noop : Option ch_message := none
  msg_queue : List ch_message := []
  cntl_msg_queue : List ch_message := []
  wait_ack_message : Option ch_message := none
  serial : Nat := 0
  conn_blocked : Bool := false
  timestamp : Nat := 0
  deriving Repr, DecidableEq, Inhabited

/-- I/O events issued by the writer paths, in program order. -/
inductive wr_event where
  /-- `uv_timer_start(&writer->send_timeout, ...)` -/
  | timer_start
  /-- `ch_cn_write(conn, bufs, n, ...)`: buffers handed to the transport. -/
  | cn_write (bufs : List (List Nat))
  /-- the user's send callback invoked with a status. -/
  | send_cb (msg : ch_message) (err : ch_error)
  /-- `_ch_wr_connect` started an outbound TCP connect. -/
  | connect_started
  deriving Repr, DecidableEq

/-- `ch_wr_write`: assert the writer is free, store the message, arm the
send timeout, increment `remote->serial` (a `uint32_t`: wraps mod `2^32`),
serialize the wire header with the incremented serial into
`writer->net_msg`, and issue one scatter write of
`[wire_header, msg.header, msg.data]`. -/
def ch_wr_write (conn : ch_connection) (remote : ch_remote) (msg : ch_message) :
    ch_connection × ch_remote × List wr_event :=
  let serial1 := (remote.serial + 1) % 2 ^ 32
  let net := ch_sr_msg_to_buf msg serial1
  ({ conn with writer_msg := some msg, net_msg := net },
   { remote with serial := serial1 },
   [wr_event.timer_start, wr_event.cn_write [net, msg.header, msg.data]])

/-- `ch_cn_abort_one_message`: dequeue one message (control queue first,
else data queue) and invoke its send callback with `error`. -/
def ch_cn_abort_one_message (remote : ch_remote) (error : ch_error) :
    ch_remote × List wr_event :=
  let (msg?, remote1) :=
    if remote.cntl_msg_queue ≠ [] then
      let (m, q) := ch_msg_dequeue remote.cntl_msg_queue
      (m, { remote with cntl_msg_queue := q })
    else if remote.msg_queue ≠ [] then
      let (m, q) := ch_msg_dequeue remote.msg_queue
      (m, { remote with msg_queue := q })
    else (none, remote)
  match msg? with
  | some m => (remote1, if m.has_send_cb then [wr_event.send_cb m error] else [])
  | none => (remote1, [])

/-- `ch_wr_process_queues`.  `sync` is `config.SYNCHRONOUS`; `alloc_ok`
abstracts whether `_ch_wr_connect` can allocate a fresh connection (its
other failure modes are libuv I/O errors outside the model).  Returns the
dispatcher verdict, the updated remote (whose `conn` holds the updated
connection) and the I/O events. -/
def ch_wr_process_queues (sync : Bool) (alloc_ok : Bool) (remote : ch_remote) :
    ch_error × ch_remote × List wr_event :=
  match remote.conn with
  | none =>
    if remote.conn_blocked then (CH_BUSY, remote, [])
    else if remote.msg_queue ≠ [] ∨ remote.cntl_msg_queue ≠ [] then
      if alloc_ok then
        /- `_ch_wr_connect`: allocate a fresh connection (not yet CONNECTED),
           set `remote->conn`, arm the connect timeout, start the connect. -/
        (CH_SUCCESS,
         { remote with conn := some { connected := false, shutting_down := false
                                      writer_msg := none, net_msg := [] } },
         [wr_event.connect_started])
      else
        let (remote1, evs) := ch_cn_abort_one_message remote CH_ENOMEM
        (CH_ENOMEM, remote1, evs)
    else (CH_EMPTY, remote, [])
  | some conn =>
    if !conn.connected || conn.shutting_down then (CH_BUSY, remote, [])
    else if conn.writer_msg ≠ none then (CH_BUSY, remote, [])
    else if remote.cntl_msg_queue ≠ [] then
      match ch_msg_dequeue remote.cntl_msg_queue with
      | (some msg, q) =>
        let (conn1, remote1, evs) :=
          ch_wr_write conn { remote with cntl_msg_queue := q } msg
        (CH_SUCCESS, { remote1 with conn := some conn1 }, evs)
      | (none, _) => (CH_EMPTY, remote, [])
    else if remote.msg_queue ≠ [] then
      if sync then
        if remote.wait_ack_message = none then
          match ch_msg_dequeue remote.msg_queue with
          | (some msg, q) =>
            let (conn1, remote1, evs) :=
              ch_wr_write conn
                { remote with msg_queue := q, wait_ack_message := some msg } msg
            (CH_SUCCESS, { remote1 with conn := some conn1 }, evs)
          | (none, _) => (CH_EMPTY, remote, [])
        else (CH_BUSY, remote, [])
      else
        match ch_msg_dequeue remote.msg_queue with
        | (some msg, q) =>
          let (conn1, remote1, evs) :=
            ch_wr_write conn { remote with msg_queue := q } msg
          (CH_SUCCESS, { remote1 with conn := some conn1 }, evs)
        | (none, _) => (CH_EMPTY, remote, [])
    else (CH_EMPTY, remote, [])

/-- `_ch_wr_enqeue_probe_if_needed` (source spelling): if the remote has
been idle longer than `1000 * REUSE_TIME / 4 * 3` milliseconds, ensure the
reusable NOOP exists (allocating it zeroed with the remote's endpoint if
needed; allocation failure just skips the probe) and enqueue it on the
control queue unless it is used (`CH_MSG_USED`) or already in a queue
(`_next != NULL`).  The noop is only ever enqueued on this remote's control
queue, so `_next == NULL` is modelled as non-membership there. -/
def ch_wr_enqeue_probe_if_needed (config : ch_config) (now : Nat)
    (alloc_ok : Bool) (remote : ch_remote) : ch_remote :=
  let delta := 1000 * config.REUSE_TIME / 4 * 3
  if now - remote.timestamp > delta then
    match remote.noop with
    | none =>
      if alloc_ok then
        let noop : ch_message := { ch_msg_zero with
          address := remote.address
          ip_protocol := remote.ip_protocol
          port := remote.port
          type := CH_MSG_NOOP }
        let remote1 := { remote with noop := some noop }
        if noop._flags &&& CH_MSG_USED = 0 ∧ noop ∉ remote1.cntl_msg_queue then
          { remote1 with cntl_msg_queue := ch_msg_enqueue remote1.cntl_msg_queue noop }
        else remote1
      else remote
    | some noop =>
      if noop._flags &&& CH_MSG_USED = 0 ∧ noop ∉ remote.cntl_msg_queue then
        { remote with cntl_msg_queue := ch_msg_enqueue remote.cntl_msg_queue noop }
      else remote
  else remote

/-- `ch_chirp_int_t` state used by the send path: the
`CH_CHIRP_CLOSING`/`CH_CHIRP_CLOSED` flags, the configuration and the
protocol's remote set (an rbtree keyed by `(ip_protocol, address, port)`,
modelled as a list with unique keys). -/
structure ch_chirp_state where
  closing : Bool := false
  config : ch_config := {}
  remotes : List ch_remote := []
  deriving Repr, DecidableEq, Inhabited

/-- `ch_remote_cmp` as an equality test on the `(ip_protocol, address, port)`
key. -/
def ch_rm_key_matches (r : ch_remote) (ip : Nat) (addr : List Nat) (port : Nat) :
    Bool :=
  r.ip_protocol == ip && r.address == addr && r.port == port

/-- `ch_rm_find` for the key taken from a message (`ch_rm_init_from_msg`). -/
def ch_rm_find (remotes : List ch_remote) (msg : ch_message) : Option ch_remote :=
  remotes.find? fun r => ch_rm_key_matches r msg.ip_protocol msg.address msg.port

/-- Write back an updated remote under its key (rbtree node update). -/
def ch_rm_store (remotes : List ch_remote) (r : ch_remote) : List ch_remote :=
  match remotes.findIdx? (fun x =>
      ch_rm_key_matches x r.ip_protocol r.address r.port) with
  | some i => remotes.set i r
  | none => remotes ++ [r]

/-- `ch_rm_init_from_msg` + `_ch_rm_init` with `key = 0`: a zeroed remote
with the message's endpoint, a random initial serial (`init_serial`) and
`timestamp = uv_now` (`now`). -/
def ch_rm_init_from_msg (msg : ch_message) (init_serial now : Nat) : ch_remote :=
  { ip_protocol := msg.ip_protocol
    address := msg.address
    port := msg.port
    conn := none, noop := none
    msg_queue := [], cntl_msg_queue := []
    wait_ack_message := none
    serial := init_serial
    conn_blocked := false
    timestamp := now }

/-- `ch_wr_send`: if chirp is closing or closed, fail the message with
SHUTDOWN synchronously (callback invoked once, nothing else touched).
Otherwise find or create the remote for the message's endpoint, mark the
message used, enqueue the probe if needed, enqueue the message on the
control queue (ACK/NOOP types) or the data queue, run the dispatcher, and
return QUEUED when the chosen queue was already non-empty, else SUCCESS.
`alloc_ok` abstracts `ch_alloc` success, `init_serial` the random serial of
a freshly created remote. -/
def ch_wr_send (st : ch_chirp_state) (msg : ch_message) (now : Nat)
    (alloc_ok : Bool) (init_serial : Nat) :
    ch_error × ch_chirp_state × List wr_event :=
  if st.closing then
    (CH_SHUTDOWN, st,
     if msg.has_send_cb then [wr_event.send_cb msg CH_SHUTDOWN] else [])
  else
    let found := ch_rm_find st.remotes msg
    if found = none ∧ ¬ alloc_ok then
      (CH_ENOMEM, st,
       if msg.has_send_cb then [wr_event.send_cb msg CH_ENOMEM] else [])
    else
      let remote0 := match found with
        | some r => r
        | none => ch_rm_init_from_msg msg init_serial now
      let msg1 := { msg with _flags := msg._flags ||| CH_MSG_USED }
      let remote1 := ch_wr_enqeue_probe_if_needed st.config now alloc_ok remote0
      let is_cntl := msg1.type &&& CH_MSG_ACK ≠ 0 ∨ msg1.type &&& CH_MSG_NOOP ≠ 0
      let queued :=
        if is_cntl then remote1.cntl_msg_queue ≠ [] else remote1.msg_queue ≠ []
      let remote2 :=
        if is_cntl then
          { remote1 with cntl_msg_queue := ch_msg_enqueue remote1.cntl_msg_queue msg1 }
        else
          { remote1 with msg_queue := ch_msg_enqueue remote1.msg_queue msg1 }
      let (_, remote3, evs) :=
        ch_wr_process_queues st.config.SYNCHRONOUS alloc_ok remote2
      ((if queued then CH_QUEUED else CH_SUCCESS),
       { st with remotes := ch_rm_store st.remotes remote3 }, evs)

/-! ## Reader (`ch_rd_*` / `_ch_rd_read_step`)

The reader fragment the claims exercise: the `CH_RD_WAIT` state (header
accumulation, decode, validation, NOOP/ACK dispatch) and the `CH_RD_SLOT`
state (slot acquisition with stream stop, wire-header copy, direct jump).
The `START`/`HANDSHAKE`/`HEADER`/`DATA` arms are connection-establishment
and body I/O outside the claims; on those states the modelled step leaves
the state unchanged. -/

/-- `ch_rd_state_t`. -/
inductive ch_rd_state where
  | CH_RD_START
  | CH_RD_HANDSHAKE
  | CH_RD_WAIT
  | CH_RD_SLOT
  | CH_RD_HEADER
  | CH_RD_DATA
  deriving Repr, DecidableEq, Inhabited

export ch_rd_state (CH_RD_START CH_RD_HANDSHAKE CH_RD_WAIT CH_RD_SLOT
  CH_RD_HEADER CH_RD_DATA)

/-- `AF_INET6` (Linux value; only compared for equality). -/
def AF_INET6 : Nat := 10

/-- `ch_reader_t`: state machine position, partial-read counter, the
27-byte scratch buffer (modelled as the accumulated prefix, of length
`bytes_read`), the decoded wire message, the held slot and the pool. -/
structure ch_reader where
  state : ch_rd_state := CH_RD_START
  bytes_read : Nat := 0
  net_msg : List Nat := []
  wire_msg : ch_message := ch_msg_zero
  slot : Option ch_bf_slot := none
  pool : ch_buffer_pool := {}
  deriving Repr, DecidableEq, Inhabited

/-- The connection state the reader fragment touches.  `remote` is
`conn->remote` (the C dereferences it in the ACK branch; post-handshake it
is non-null). -/
structure rd_conn where
  reader : ch_reader := {}
  remote : Option ch_remote := none
  stopped : Bool := false
  ip_protocol : Nat := 0
  address : List Nat := List.replicate 16 0
  port : Nat := 0
  remote_identity : List Nat := List.replicate 16 0
  timestamp : Nat := 0
  deriving Repr, DecidableEq, Inhabited

/-- `_ch_rd_verify_msg`: `header_len + data_len` is computed as a
`uint32_t` (the sum wraps mod `2^32`) and compared against `MAX_MSG_SIZE`
- violation yields `CH_ENOMEM`; an ACK or NOOP carrying header/data or
requiring an ack yields `CH_PROTOCOL_ERROR`. -/
def ch_rd_verify_msg (config : ch_config) (msg : ch_message) : ch_error :=
  let total_wire_msg_size := (msg.header_len + msg.data_len) % 2 ^ 32
  if total_wire_msg_size > config.MAX_MSG_SIZE then CH_ENOMEM
  else if msg.type &&& CH_MSG_ACK ≠ 0 ∨ msg.type &&& CH_MSG_NOOP ≠ 0 then
    if msg.header_len ≠ 0 ∨ msg.data_len ≠ 0 then CH_PROTOCOL_ERROR
    else if msg.type &&& CH_MSG_REQ_ACK ≠ 0 then CH_PROTOCOL_ERROR
    else CH_SUCCESS
  else CH_SUCCESS

/-- I/O events issued by the reader step, in program order. -/
inductive rd_event where
  /-- `ch_cn_shutdown(conn, err)` -/
  | shutdown (err : ch_error)
  /-- `uv_read_stop(&conn->client)` -/
  | read_stop
  /-- `ch_chirp_finish_message(chirp, conn, msg, status)` -/
  | finish_message (msg : ch_message) (status : ch_error)
  /-- `_ch_rd_handle_msg`: the message is delivered to the receive callback. -/
  | handle_msg (msg : ch_message)
  deriving Repr, DecidableEq

/-- Result of one `_ch_rd_read_step` invocation. -/
structure rd_step_result where
  conn : rd_conn
  bytes_handled : Int
  stop : Bool
  cont : Bool
  events : List rd_event
  deriving Repr, DecidableEq

/-- `_ch_rd_handle_msg`: reset the reader to `CH_RD_WAIT`, clear the slot,
refresh both timestamps, bump the pool refcount and deliver the message. -/
def ch_rd_handle_msg (conn : rd_conn) (now : Nat) (msg : ch_message) :
    rd_conn × List rd_event :=
  let reader1 := { conn.reader with
    state := CH_RD_WAIT
    slot := none
    pool := { conn.reader.pool with refcnt := conn.reader.pool.refcnt + 1 } }
  ({ conn with
     reader := reader1
     timestamp := now
     remote := conn.remote.map fun r => { r with timestamp := now } },
   [rd_event.handle_msg msg])

/-- `_ch_rd_read_step` on the `CH_RD_WAIT` and `CH_RD_SLOT` states.
`buf`/`bytes_read` is the available chunk, `bytes_handled` the already
consumed prefix; returns the updated state, the new `bytes_handled`
(`-1` on shutdown), the `stop`/`cont` out-parameters and the I/O events. -/
def ch_rd_read_step (config : ch_config) (now : Nat) (conn : rd_conn)
    (buf : List Nat) (bytes_read : Nat) (bytes_handled : Nat) : rd_step_result :=
  let reader := conn.reader
  let to_read := bytes_read - bytes_handled
  match reader.state with
  | CH_RD_WAIT =>
    if bytes_read = 0 then
      { conn := conn, bytes_handled := -1, stop := false, cont := false, events := [] }
    else
      let reading := CH_SR_WIRE_MESSAGE_SIZE - reader.bytes_read
      if to_read ≥ reading then
        let net := reader.net_msg ++ ((buf.drop bytes_handled).take reading)
        let bytes_handled1 := bytes_handled + reading
        let reader1 := { reader with bytes_read := 0, net_msg := net }
        let wire_msg := ch_sr_buf_to_msg net reader.wire_msg
        let reader2 := { reader1 with wire_msg := wire_msg }
        let conn1 := { conn with reader := reader2 }
        let tmp_err := ch_rd_verify_msg config wire_msg
        if tmp_err ≠ CH_SUCCESS then
          { conn := conn1, bytes_handled := -1, stop := false, cont := false
            events := [rd_event.shutdown tmp_err] }
        else if wire_msg.type &&& CH_MSG_NOOP ≠ 0 then
          { conn := { conn1 with
              timestamp := now
              remote := conn1.remote.map fun r => { r with timestamp := now } }
            bytes_handled := bytes_handled1, stop := false, cont := false
            events := [] }
        else if wire_msg.type &&& CH_MSG_ACK ≠ 0 then
          match conn1.remote with
          | some remote =>
            match remote.wait_ack_message with
            | some wam =>
              if wam.identity = wire_msg.identity then
                let wam1 := { wam with _flags := wam._flags ||| CH_MSG_ACK_RECEIVED }
                { conn := { conn1 with
                    remote := some { remote with wait_ack_message := none } }
                  bytes_handled := bytes_handled1, stop := false, cont := false
                  events := [rd_event.finish_message wam1 CH_SUCCESS] }
              else
                { conn := conn1, bytes_handled := bytes_handled1
                  stop := false, cont := false, events := [] }
            | none =>
              { conn := conn1, bytes_handled := bytes_handled1
                stop := false, cont := false, events := [] }
          | none =>
            /- the C dereferences `conn->remote` unconditionally here; a null
               remote cannot occur after the handshake. -/
            { conn := conn1, bytes_handled := bytes_handled1
              stop := false, cont := false, events := [] }
        else
          { conn := { conn1 with reader := { reader2 with state := CH_RD_SLOT } }
            bytes_handled := bytes_handled1, stop := false, cont := true
            events := [] }
      else
        let net := reader.net_msg ++ ((buf.drop bytes_handled).take to_read)
        let reader1 := { reader with
          bytes_read := reader.bytes_read + to_read, net_msg := net }
        { conn := { conn with reader := reader1 }
          bytes_handled := (bytes_handled + to_read : Nat)
          stop := false, cont := false, events := [] }
  | CH_RD_SLOT =>
    let wire_msg := reader.wire_msg
    let acquired :=
      match reader.slot with
      | none =>
        let (slot?, pool1) := ch_bf_acquire reader.pool
        (slot?, pool1)
      | some slot => (some slot, reader.pool)
    match acquired with
    | (none, pool1) =>
      { conn := { conn with
          reader := { reader with pool := pool1 }
          stopped := true }
        bytes_handled := (bytes_handled : Nat)
        stop := true, cont := false
        events := if conn.stopped then [] else [rd_event.read_stop] }
    | (some slot, pool1) =>
      let msg0 := slot.msg
      let msg1 := { msg0 with
        identity := wire_msg.identity
        serial := wire_msg.serial
        type := wire_msg.type
        header_len := wire_msg.header_len
        data_len := wire_msg.data_len
        ip_protocol := conn.ip_protocol
        port := conn.port
        remote_identity := conn.remote_identity
        address := if conn.ip_protocol = AF_INET6 then conn.address
                   else conn.address.take 4 ++ msg0.address.drop 4 }
      let msg2 := if msg1.type &&& CH_MSG_REQ_ACK ≠ 0 then
          { msg1 with _flags := msg1._flags ||| CH_MSG_SEND_ACK }
        else msg1
      let slot1 := { slot with msg := msg2 }
      let reader1 := { reader with slot := some slot1, pool := pool1 }
      if msg2.header_len > 0 then
        { conn := { conn with reader := { reader1 with state := CH_RD_HEADER } }
          bytes_handled := (bytes_handled : Nat)
          stop := false, cont := false, events := [] }
      else if msg2.data_len > 0 then
        { conn := { conn with reader := { reader1 with state := CH_RD_DATA } }
          bytes_handled := (bytes_handled : Nat)
          stop := false, cont := false, events := [] }
      else
        let (conn1, evs) := ch_rd_handle_msg { conn with reader := reader1 } now msg2
        { conn := conn1, bytes_handled := (bytes_handled : Nat)
          stop := false, cont := false, events := evs }
  | _ =>
    /- START/HANDSHAKE/HEADER/DATA: outside the modelled fragment. -/
    { conn := conn, bytes_handled := (bytes_handled : Nat)
      stop := false, cont := false, events := [] }

/-! ## Connection shutdown (`ch_cn_shutdown`) -/

/-- Connection state touched by `ch_cn_shutdown`: the `SHUTTING_DOWN` and
`INIT_CLIENT` flags, the writer's in-flight message, whether the `remote`
back pointer is set, and the close-accounting flag. -/
structure sd_conn where
  shutting_down : Bool := false
  init_client : Bool := false
  writer_msg : Option ch_message := none
  has_remote : Bool := false
  do_close_accounting : Bool := false
  deriving Repr, DecidableEq, Inhabited

/-- The state `ch_cn_shutdown` can read or write: the connection, its
membership in `handshake_conns` / `old_connections`, the remote found by
the connection's key (`none` when absent), whether `remote->conn` points
at this connection, the reconnect debounce state and the chirp close
accounting. -/
structure sd_world where
  conn : sd_conn := {}
  in_handshake_conns : Bool := false
  in_old_connections : Bool := false
  remote : Option ch_remote := none
  remote_conn_is_this : Bool := false
  reconnect_remotes_nonempty : Bool := false
  reconnect_timer_armed : Bool := false
  chirp_closing : Bool := false
  closing_tasks : Nat := 0
  deriving Repr, DecidableEq, Inhabited

/-- Events issued by the shutdown path, in program order. -/
inductive sd_event where
  /-- `uv_read_stop` on the client stream -/
  | read_stop
  /-- `ch_chirp_finish_message(chirp, conn, msg, status)`: fails the message
  (the user callback fires and the dispatcher is re-entered). -/
  | finish_message (msg : ch_message) (status : ch_error)
  /-- `ch_cn_abort_one_message`: the aborted head's send callback. -/
  | send_cb (msg : ch_message) (status : ch_error)
  /-- `_ch_cn_closing(conn)`: the close stage is entered. -/
  | closing
  deriving Repr, DecidableEq

/-- `ch_pr_debounce_connection` on the state it touches: the remote found
by the connection's key, the reconnect stack and the reconnect timer.  If
the remote exists: arm the reconnect timer when the reconnect stack is
empty, and push the remote with `CH_RM_CONN_BLOCKED` set unless it is
already blocked.  Returns the updated remote, reconnect-stack-nonempty and
timer-armed states. -/
def ch_pr_debounce_connection (remote? : Option ch_remote)
    (reconnect_remotes_nonempty reconnect_timer_armed : Bool) :
    Option ch_remote × Bool × Bool :=
  match remote? with
  | some remote =>
    let timer_armed1 :=
      if ¬ reconnect_remotes_nonempty then true else reconnect_timer_armed
    if ¬ remote.conn_blocked then
      (some { remote with conn_blocked := true }, true, timer_armed1)
    else (some remote, reconnect_remotes_nonempty, timer_armed1)
  | none => (remote?, reconnect_remotes_nonempty, reconnect_timer_armed)

/-- `ch_cn_shutdown`: a second call on a connection already shutting down
returns `CH_IN_PRORESS` immediately and changes nothing.  The first call
sets `SHUTTING_DOWN`, debounces the remote, removes the connection from
`handshake_conns` and `old_connections`, clears both direction pointers,
drops the remote's control queue, fails the in-flight and wait-ack
messages with `reason`, aborts one queued message if nothing was in
flight, performs the close accounting and enters the closing stage.  The
C mutates the state in this order; the model computes each field from the
pre-state and assembles the final world once (no step reads a field
another step wrote, except the debounced remote, threaded explicitly).
The C compares `msg != wam` by pointer; messages are modelled by value. -/
def ch_cn_shutdown (w : sd_world) (reason : ch_error) :
    ch_error × sd_world × List sd_event :=
  if w.conn.shutting_down then (CH_IN_PRORESS, w, [])
  else
    /- `conn->flags |= CH_CN_SHUTTING_DOWN; ch_pr_debounce_connection(conn)` -/
    let deb := ch_pr_debounce_connection w.remote w.reconnect_remotes_nonempty
      w.reconnect_timer_armed
    let remote1 := deb.1
    /- `uv_read_stop` when the client handle was initialized -/
    let evs_stop := if w.conn.init_client then [sd_event.read_stop] else []
    let msg := w.conn.writer_msg
    /- `wam = remote->wait_ack_message; remote->wait_ack_message = NULL;`
       `remote->conn = NULL` when it still points here; abort all ack
       messages: `remote->cntl_msg_queue = NULL` -/
    let wam := match remote1 with
      | some remote => remote.wait_ack_message
      | none => none
    let remote2 := match remote1 with
      | some remote =>
        some { remote with
          wait_ack_message := none
          conn := if w.remote_conn_is_this then none else remote.conn
          cntl_msg_queue := [] }
      | none => none
    let evs_wam := match wam with
      | some m =>
        [sd_event.finish_message
          { m with _flags := m._flags ||| CH_MSG_ACK_RECEIVED ||| CH_MSG_WRITE_DONE }
          reason]
      | none => []
    let evs_msg := match msg with
      | some m =>
        if wam = some m then []
        else
          [sd_event.finish_message
            { m with _flags := m._flags ||| CH_MSG_ACK_RECEIVED ||| CH_MSG_WRITE_DONE }
            reason]
      | none => []
    let abort_res :=
      if wam = none ∧ msg = none ∧ remote2 ≠ none then
        match remote2 with
        | some remote =>
          let ab := ch_cn_abort_one_message remote reason
          (some ab.1,
           ab.2.filterMap fun e =>
             match e with
             | wr_event.send_cb m err => some (sd_event.send_cb m err)
             | _ => none)
        | none => (remote2, ([] : List sd_event))
      else (remote2, [])
    (CH_SUCCESS,
     { conn := { w.conn with
         shutting_down := true
         has_remote := false
         do_close_accounting :=
           if w.chirp_closing then true else w.conn.do_close_accounting }
       in_handshake_conns := false
       in_old_connections := false
       remote := abort_res.1
       remote_conn_is_this := false
       reconnect_remotes_nonempty := deb.2.1
       reconnect_timer_armed := deb.2.2
       chirp_closing := w.chirp_closing
       closing_tasks :=
         if w.chirp_closing then w.closing_tasks + 1 else w.closing_tasks },
     evs_stop ++ evs_wam ++ evs_msg ++ abort_res.2 ++ [sd_event.closing])

/-! ## Chirp identity initialisation (`ch_chirp_init`) -/

/-- The zero-scan loop of `ch_chirp_init`:
`while (i < sizeof(IDENTITY) - 1 && IDENTITY[i] == 0) i += 1;` - the index
where the loop stops (first `i < 15` with a nonzero byte, else 15). -/
def ch_chirp_identity_scan (identity : List Nat) : Nat :=
  match (List.range 15).find? (fun i => identity.getD i 0 ≠ 0) with
  | some i => i
  | none => 15

/-- The identity setup of `ch_chirp_init`: `ichirp` is zeroed by `memset`;
if the scan finds the configured IDENTITY all-zero
(`tconf->IDENTITY[i] == 0`), a random identity is generated
(`ch_random_ints_as_bytes`, the `random_identity` parameter); otherwise
`*ichirp->identity = *tconf->IDENTITY;` copies exactly ONE byte -
`identity[0] = IDENTITY[0]` - and bytes 1..15 stay zero from the memset. -/
def ch_chirp_init_identity (config : ch_config) (random_identity : List Nat) :
    List Nat :=
  let i := ch_chirp_identity_scan config.IDENTITY
  if config.IDENTITY.getD i 0 = 0 then random_identity
  else config.IDENTITY.getD 0 0 :: List.replicate 15 0

/-! ## Claim theorems -/

theorem list_length_16_destruct (l : List Nat) (hlen : l.length = 16) :
    ∃ a b c d e f g h i j k m n o p q,
      l = [a, b, c, d, e, f, g, h, i, j, k, m, n, o, p, q] := by
  match hm : l, hlen with
  | [a, b, c, d, e, f, g, h, i, j, k, m, n, o, p, q], _ =>
    exact ⟨a, b, c, d, e, f, g, h, i, j, k, m, n, o, p, q, rfl⟩

/-- Decoding the serial field of an encoded wire header yields the encoded
serial reduced `mod 2^32`. -/
theorem sr_decode_serial (m tgt : ch_message) (s : Nat)
    (hid : m.identity.length = 16) :
    (ch_sr_buf_to_msg (ch_sr_msg_to_buf m s) tgt).serial = s % 2 ^ 32 := by
  obtain ⟨a, b, c, d, e, f, g, h, i, j, k, m', n, o, p, q, hl⟩ :=
    list_length_16_destruct m.identity hid
  simp only [ch_sr_msg_to_buf, ch_sr_buf_to_msg, hl, htonl, htons]
  simp only [List.cons_append, List.nil_append, List.getD_cons_succ,
    List.getD_cons_zero, ntohl]
  omega

/-- C1: Outbound serials per Remote are strictly monotonically increasing:
`ch_wr_write` increments `remote->serial` by exactly one (mod `2^32`), two
consecutive writes on the same remote carry wire serials that differ by one
(mod `2^32`), and each write's single transport handoff (`ch_cn_write`)
already carries the 27-byte header serialized with the just-assigned
serial - the serial is assigned strictly before any byte reaches the
transport. -/
theorem wr_serial_monotonic (conn conn2 : ch_connection) (remote : ch_remote)
    (m1 m2 tgt : ch_message)
    (hid1 : m1.identity.length = 16) (hid2 : m2.identity.length = 16) :
    (ch_wr_write conn remote m1).2.1.serial = (remote.serial + 1) % 2 ^ 32 ∧
    (ch_wr_write conn2 (ch_wr_write conn remote m1).2.1 m2).2.1.serial =
      ((ch_wr_write conn remote m1).2.1.serial + 1) % 2 ^ 32 ∧
    (ch_wr_write conn remote m1).2.2 =
      [wr_event.timer_start,
       wr_event.cn_write
         [ch_sr_msg_to_buf m1 (ch_wr_write conn remote m1).2.1.serial,
          m1.header, m1.data]] ∧
    (ch_sr_buf_to_msg
        (ch_sr_msg_to_buf m1 (ch_wr_write conn remote m1).2.1.serial)
        tgt).serial =
      (ch_wr_write conn remote m1).2.1.serial ∧
    (ch_sr_buf_to_msg
        (ch_sr_msg_to_buf m2
          (ch_wr_write conn2 (ch_wr_write conn remote m1).2.1 m2).2.1.serial)
        tgt).serial =
      ((ch_sr_buf_to_msg
          (ch_sr_msg_to_buf m1 (ch_wr_write conn remote m1).2.1.serial)
          tgt).serial + 1) % 2 ^ 32 := by
  refine ⟨rfl, rfl, rfl, ?_, ?_⟩
  · rw [sr_decode_serial m1 tgt _ hid1]
    simp only [ch_wr_write]
    omega
  · rw [sr_decode_serial m2 tgt _ hid2, sr_decode_serial m1 tgt _ hid1]
    simp only [ch_wr_write]
    omega

/-- Witness for `wr_serial_monotonic` at concrete inputs: two writes on a
remote with serial `2^32 - 1` produce serials 0 and 1. -/
theorem wr_serial_monotonic_witness :
    (ch_wr_write {} ({ serial := 2 ^ 32 - 1 } : ch_remote)
        { ch_msg_zero with identity := List.replicate 16 3 }).2.1.serial = 0 ∧
    (ch_wr_write {}
        (ch_wr_write {} ({ serial := 2 ^ 32 - 1 } : ch_remote)
          { ch_msg_zero with identity := List.replicate 16 3 }).2.1
        { ch_msg_zero with identity := List.replicate 16 4 }).2.1.serial = 1 := by
  have h := wr_serial_monotonic {} {} ({ serial := 2 ^ 32 - 1 } : ch_remote)
    { ch_msg_zero with identity := List.replicate 16 3 }
    { ch_msg_zero with identity := List.replicate 16 4 }
    ch_msg_zero (by decide) (by decide)
  refine ⟨?_, ?_⟩
  · rw [h.1]; decide
  · rw [h.2.1, h.1]; decide

/-- C10: If the chirp instance is closing or closed, `ch_wr_send` invokes
the send callback exactly once with SHUTDOWN, returns SHUTDOWN
synchronously, and changes no state (no enqueue, no remote lookup or
creation, remotes untouched). -/
theorem wr_send_when_closing (st : ch_chirp_state) (msg : ch_message)
    (now : Nat) (alloc_ok : Bool) (init_serial : Nat)
    (hclosing : st.closing = true) (hcb : msg.has_send_cb = true) :
    ch_wr_send st msg now alloc_ok init_serial =
      (CH_SHUTDOWN, st, [wr_event.send_cb msg CH_SHUTDOWN]) := by
  simp [ch_wr_send, hclosing, hcb]

/-- Witness for `wr_send_when_closing` at a concrete closing state. -/
theorem wr_send_when_closing_witness :
    ch_wr_send { closing := true } { ch_msg_zero with has_send_cb := true }
        0 true 0 =
      (CH_SHUTDOWN, { closing := true },
       [wr_event.send_cb { ch_msg_zero with has_send_cb := true } CH_SHUTDOWN]) :=
  wr_send_when_closing { closing := true }
    { ch_msg_zero with has_send_cb := true } 0 true 0 rfl rfl


/-- C9: Connection shutdown is idempotent: on a connection already
shutting down, `ch_cn_shutdown` returns `CH_IN_PRORESS` immediately,
changes no connection, remote or protocol state and issues no events;
a first call sets `SHUTTING_DOWN` and returns `CH_SUCCESS`, so any second
call after it is such a no-op. -/
theorem cn_shutdown_idempotent (w : sd_world) (reason reason2 : ch_error) :
    (w.conn.shutting_down = true →
      ch_cn_shutdown w reason = (CH_IN_PRORESS, w, [])) ∧
    (w.conn.shutting_down = false →
      (ch_cn_shutdown w reason).1 = CH_SUCCESS ∧
      (ch_cn_shutdown w reason).2.1.conn.shutting_down = true ∧
      ch_cn_shutdown (ch_cn_shutdown w reason).2.1 reason2 =
        (CH_IN_PRORESS, (ch_cn_shutdown w reason).2.1, [])) := by
  have hnoop : ∀ v r, v.conn.shutting_down = true →
      ch_cn_shutdown v r = (CH_IN_PRORESS, v, []) := by
    intro v r hv
    simp [ch_cn_shutdown, hv]
  constructor
  · exact hnoop w reason
  · intro h
    have hsucc : (ch_cn_shutdown w reason).1 = CH_SUCCESS := by
      unfold ch_cn_shutdown
      rw [h, if_neg (by simp)]
    have hflag : (ch_cn_shutdown w reason).2.1.conn.shutting_down = true := by
      unfold ch_cn_shutdown
      rw [h, if_neg (by simp)]
    exact ⟨hsucc, hflag, hnoop _ reason2 hflag⟩

/-- Witness for `cn_shutdown_idempotent`: both branches at concrete worlds. -/
theorem cn_shutdown_idempotent_witness :
    ch_cn_shutdown { conn := { shutting_down := true } } CH_TIMEOUT =
      (CH_IN_PRORESS, { conn := { shutting_down := true } }, []) ∧
    (ch_cn_shutdown ({} : sd_world) CH_TIMEOUT).1 = CH_SUCCESS ∧
    (ch_cn_shutdown ({} : sd_world) CH_TIMEOUT).2.1.conn.shutting_down = true := by
  have h := cn_shutdown_idempotent { conn := { shutting_down := true } }
    CH_TIMEOUT CH_TIMEOUT
  have h2 := cn_shutdown_idempotent ({} : sd_world) CH_TIMEOUT CH_TIMEOUT
  exact ⟨h.1 rfl, (h2.2 rfl).1, (h2.2 rfl).2.1⟩

/-- C8 (code bug): the one-byte identity copy.  With the configured
IDENTITY `01 02 .. 10` (not all-zero), `ch_chirp_init` produces the node
identity `01 00 .. 00` - only byte 0 is copied
(`*ichirp->identity = *tconf->IDENTITY`), so the node identity does NOT
equal the configured IDENTITY; with an all-zero IDENTITY the random
identity is used as documented. -/
theorem chirp_init_identity_one_byte_bug :
    ch_chirp_init_identity
        { IDENTITY := [1, 2, 3, 4, 5, 6, 7, 8, 9, 10, 11, 12, 13, 14, 15, 16] }
        (List.replicate 16 99) =
      [1, 0, 0, 0, 0, 0, 0, 0, 0, 0, 0, 0, 0, 0, 0, 0] ∧
    ([1, 0, 0, 0, 0, 0, 0, 0, 0, 0, 0, 0, 0, 0, 0, 0] : List Nat) ≠
      [1, 2, 3, 4, 5, 6, 7, 8, 9, 10, 11, 12, 13, 14, 15, 16] ∧
    ch_chirp_init_identity { IDENTITY := List.replicate 16 0 }
        (List.replicate 16 99) =
      List.replicate 16 99 := by decide

/-- C4: Per Remote, control messages have strict priority over data:
whenever the dispatcher runs on a Remote whose connection is connected,
not shutting down, and whose writer is free, it dequeues and writes the
HEAD of the control queue whenever that queue is non-empty (the data queue
untouched), and only when the control queue is empty does it consider the
data queue (again writing its head, FIFO); additionally, `ch_wr_send`
routes a message to the control queue exactly when its type has ACK or
NOOP set (with a blocked connectionless remote and no probe due, so the
dispatcher and probe do not interfere with the queues). -/
theorem pq_cntl_priority (sync alloc_ok : Bool) (remote : ch_remote)
    (conn : ch_connection)
    (hconn : remote.conn = some conn) (hcd : conn.connected = true)
    (hsd : conn.shutting_down = false) (hw : conn.writer_msg = none) :
    (∀ c cq, remote.cntl_msg_queue = c :: cq →
      ch_wr_process_queues sync alloc_ok remote =
        (CH_SUCCESS,
         { remote with
           cntl_msg_queue := cq
           serial := (remote.serial + 1) % 2 ^ 32
           conn := some { conn with
             writer_msg := some c
             net_msg := ch_sr_msg_to_buf c ((remote.serial + 1) % 2 ^ 32) } },
         [wr_event.timer_start,
          wr_event.cn_write
            [ch_sr_msg_to_buf c ((remote.serial + 1) % 2 ^ 32),
             c.header, c.data]])) ∧
    (remote.cntl_msg_queue = [] → sync = false →
      ∀ d dq, remote.msg_queue = d :: dq →
        ch_wr_process_queues sync alloc_ok remote =
          (CH_SUCCESS,
           { remote with
             msg_queue := dq
             serial := (remote.serial + 1) % 2 ^ 32
             conn := some { conn with
               writer_msg := some d
               net_msg := ch_sr_msg_to_buf d ((remote.serial + 1) % 2 ^ 32) } },
           [wr_event.timer_start,
            wr_event.cn_write
              [ch_sr_msg_to_buf d ((remote.serial + 1) % 2 ^ 32),
               d.header, d.data]])) ∧
    (∀ st msg now is_, st.closing = false →
      ∀ r, ch_rm_find st.remotes msg = some r → r.conn = none →
        r.conn_blocked = true →
        ¬ (now - r.timestamp > 1000 * st.config.REUSE_TIME / 4 * 3) →
        (msg.type &&& CH_MSG_ACK ≠ 0 ∨ msg.type &&& CH_MSG_NOOP ≠ 0 →
          (ch_wr_send st msg now alloc_ok is_).2.1.remotes =
            ch_rm_store st.remotes { r with cntl_msg_queue := ch_msg_enqueue r.cntl_msg_queue { msg with _flags := msg._flags ||| CH_MSG_USED } }) ∧
        (msg.type &&& CH_MSG_ACK = 0 ∧ msg.type &&& CH_MSG_NOOP = 0 →
          (ch_wr_send st msg now alloc_ok is_).2.1.remotes =
            ch_rm_store st.remotes { r with msg_queue := ch_msg_enqueue r.msg_queue { msg with _flags := msg._flags ||| CH_MSG_USED } })) := by
  refine ⟨?_, ?_, ?_⟩
  · intro c cq hq
    simp [ch_wr_process_queues, hconn, hcd, hsd, hw, hq, ch_msg_dequeue,
      ch_wr_write]
  · intro hcq hsync d dq hq
    simp [ch_wr_process_queues, hconn, hcd, hsd, hw, hcq, hsync, hq,
      ch_msg_dequeue, ch_wr_write]
  · intro st msg now is_ hcl r hfind hrc hrb hprobe
    have hpq : ∀ r2 : ch_remote, r2.conn = none → r2.conn_blocked = true →
        ch_wr_process_queues st.config.SYNCHRONOUS alloc_ok r2 =
          (CH_BUSY, r2, []) := by
      intro r2 h1 h2
      simp [ch_wr_process_queues, h1, h2]
    constructor
    · intro hty
      simp only [ch_wr_send, hcl, Bool.false_eq_true, if_false, hfind]
      have hnone : ¬ ((some r : Option ch_remote) = none ∧ ¬ alloc_ok = true) := by
        simp
      rw [if_neg hnone]
      simp only [ch_wr_enqeue_probe_if_needed, if_neg hprobe]
      rw [if_pos hty]
      rw [hpq _ (by simpa using hrc) (by simpa using hrb)]
    · intro hty
      simp only [ch_wr_send, hcl, Bool.false_eq_true, if_false, hfind]
      have hnone : ¬ ((some r : Option ch_remote) = none ∧ ¬ alloc_ok = true) := by
        simp
      rw [if_neg hnone]
      simp only [ch_wr_enqeue_probe_if_needed, if_neg hprobe]
      rw [if_neg (by simp [hty.1, hty.2])]
      rw [hpq _ (by simpa using hrc) (by simpa using hrb)]

/-- Witness for `pq_cntl_priority`: a connected remote with one queued
control message gets it written. -/
theorem pq_cntl_priority_witness :
    (ch_wr_process_queues false true
        { conn := some { connected := true }
          cntl_msg_queue := [ch_msg_zero] }).1 = CH_SUCCESS := by
  have h := pq_cntl_priority false true
    { conn := some { connected := true }, cntl_msg_queue := [ch_msg_zero] }
    { connected := true } rfl rfl rfl rfl
  rw [h.1 ch_msg_zero [] rfl]

/-- C3: In synchronous mode at most one data message per Remote is in
flight awaiting an ACK: the dispatcher dequeues a data message only when
`wait_ack_message` is null, and stores the dequeued message as
`wait_ack_message` before writing it; while `wait_ack_message` is set a
pending data message is NOT dequeued (BUSY, nothing changes); and the
reader's ACK processing (identity matching the wait-ack message) clears
`wait_ack_message` and completes the message with SUCCESS, after which a
new send may begin. -/
theorem sync_wait_ack_single_flight (alloc_ok : Bool) (remote : ch_remote)
    (conn : ch_connection)
    (hconn : remote.conn = some conn) (hcd : conn.connected = true)
    (hsd : conn.shutting_down = false) (hw : conn.writer_msg = none)
    (hcntl : remote.cntl_msg_queue = []) :
    (remote.wait_ack_message = none →
      ∀ d dq, remote.msg_queue = d :: dq →
        ch_wr_process_queues true alloc_ok remote =
          (CH_SUCCESS,
           { remote with
             msg_queue := dq
             wait_ack_message := some d
             serial := (remote.serial + 1) % 2 ^ 32
             conn := some { conn with
               writer_msg := some d
               net_msg := ch_sr_msg_to_buf d ((remote.serial + 1) % 2 ^ 32) } },
           [wr_event.timer_start,
            wr_event.cn_write
              [ch_sr_msg_to_buf d ((remote.serial + 1) % 2 ^ 32),
               d.header, d.data]])) ∧
    (remote.wait_ack_message ≠ none → remote.msg_queue ≠ [] →
      ch_wr_process_queues true alloc_ok remote = (CH_BUSY, remote, [])) ∧
    (∀ (config : ch_config) (now : Nat) (rconn : rd_conn) (buf : List Nat)
        (remote2 : ch_remote) (wam : ch_message),
      rconn.reader.state = CH_RD_WAIT →
      rconn.reader.bytes_read = 0 →
      rconn.reader.net_msg = [] →
      buf.length = 27 →
      ch_rd_verify_msg config (ch_sr_buf_to_msg buf rconn.reader.wire_msg) =
        CH_SUCCESS →
      (ch_sr_buf_to_msg buf rconn.reader.wire_msg).type &&& CH_MSG_NOOP = 0 →
      (ch_sr_buf_to_msg buf rconn.reader.wire_msg).type &&& CH_MSG_ACK ≠ 0 →
      rconn.remote = some remote2 →
      remote2.wait_ack_message = some wam →
      wam.identity = (ch_sr_buf_to_msg buf rconn.reader.wire_msg).identity →
      (ch_rd_read_step config now rconn buf 27 0).conn.remote =
        some { remote2 with wait_ack_message := none } ∧
      (ch_rd_read_step config now rconn buf 27 0).events =
        [rd_event.finish_message
          { wam with _flags := wam._flags ||| CH_MSG_ACK_RECEIVED }
          CH_SUCCESS]) := by
  refine ⟨?_, ?_, ?_⟩
  · intro hwam d dq hq
    simp [ch_wr_process_queues, hconn, hcd, hsd, hw, hcntl, hwam, hq,
      ch_msg_dequeue, ch_wr_write]
  · intro hwam hq
    simp [ch_wr_process_queues, hconn, hcd, hsd, hw, hcntl, hwam, hq]
  · intro config now rconn buf remote2 wam hstate hbr hnet hlen hverify
      hnoop hack hremote hwam hid
    have hfull : rconn.reader.net_msg ++
        (buf.drop 0).take (CH_SR_WIRE_MESSAGE_SIZE - rconn.reader.bytes_read) =
        buf := by
      rw [hnet, hbr, List.drop_zero, List.nil_append]
      exact List.take_of_length_le (by rw [hlen]; decide)
    rw [show (27 : Nat) = CH_SR_WIRE_MESSAGE_SIZE from rfl] at hlen ⊢
    simp only [ch_rd_read_step, hstate]
    rw [if_neg (by simp [CH_SR_WIRE_MESSAGE_SIZE])]
    rw [if_pos (by simp [hbr, CH_SR_WIRE_MESSAGE_SIZE])]
    simp only [hfull]
    rw [if_neg (by simp [hverify])]
    rw [if_neg (by simp [hnoop])]
    rw [if_pos hack]
    simp only [hremote, hwam, hid, if_pos rfl]
    exact ⟨rfl, rfl⟩

/-- Witness for `sync_wait_ack_single_flight`: with no wait-ack message a
queued data message is written; with one pending the dispatcher is BUSY
and nothing changes. -/
theorem sync_wait_ack_single_flight_witness :
    (ch_wr_process_queues true true
        { conn := some { connected := true }, msg_queue := [ch_msg_zero] }).1 =
      CH_SUCCESS ∧
    ch_wr_process_queues true true
        { conn := some { connected := true }, msg_queue := [ch_msg_zero],
          wait_ack_message := some ch_msg_zero } =
      (CH_BUSY,
       { conn := some { connected := true }, msg_queue := [ch_msg_zero],
         wait_ack_message := some ch_msg_zero }, []) := by
  have h1 := sync_wait_ack_single_flight true
    { conn := some { connected := true }, msg_queue := [ch_msg_zero] }
    { connected := true } rfl rfl rfl rfl rfl
  have h2 := sync_wait_ack_single_flight true
    { conn := some { connected := true }, msg_queue := [ch_msg_zero],
      wait_ack_message := some ch_msg_zero }
    { connected := true } rfl rfl rfl rfl rfl
  constructor
  · rw [h1.1 rfl ch_msg_zero [] rfl]
  · exact h2.2.1 (by simp) (by simp)

/-- C6 (amended): when the reader decodes a wire header whose
`header_len + data_len` (a `uint32_t` sum, mod `2^32`) exceeds
`MAX_MSG_SIZE`, the message is rejected with `CH_ENOMEM` (not a protocol
error) and the connection is shut down before any slot is acquired (pool
and held slot untouched, reader still in WAIT); an ACK or NOOP carrying
non-zero header/data, or with REQ_ACK set, is rejected with
`CH_PROTOCOL_ERROR` and the connection likewise shut down before any slot
is acquired. -/
theorem rd_verify_rejects (config : ch_config) (now : Nat) (rconn : rd_conn)
    (buf : List Nat) (wire : ch_message)
    (hwire : wire = ch_sr_buf_to_msg buf rconn.reader.wire_msg)
    (hstate : rconn.reader.state = CH_RD_WAIT)
    (hbr : rconn.reader.bytes_read = 0)
    (hnet : rconn.reader.net_msg = [])
    (hlen : buf.length = 27) :
    ((wire.header_len + wire.data_len) % 2 ^ 32 > config.MAX_MSG_SIZE →
      ch_rd_verify_msg config wire = CH_ENOMEM ∧
      (ch_rd_read_step config now rconn buf 27 0).events =
        [rd_event.shutdown CH_ENOMEM] ∧
      (ch_rd_read_step config now rconn buf 27 0).bytes_handled = -1 ∧
      (ch_rd_read_step config now rconn buf 27 0).conn.reader.pool =
        rconn.reader.pool ∧
      (ch_rd_read_step config now rconn buf 27 0).conn.reader.slot =
        rconn.reader.slot ∧
      (ch_rd_read_step config now rconn buf 27 0).conn.reader.state =
        CH_RD_WAIT) ∧
    (¬ (wire.header_len + wire.data_len) % 2 ^ 32 > config.MAX_MSG_SIZE →
      (wire.type &&& CH_MSG_ACK ≠ 0 ∨ wire.type &&& CH_MSG_NOOP ≠ 0) →
      (wire.header_len ≠ 0 ∨ wire.data_len ≠ 0 ∨
        wire.type &&& CH_MSG_REQ_ACK ≠ 0) →
      ch_rd_verify_msg config wire = CH_PROTOCOL_ERROR ∧
      (ch_rd_read_step config now rconn buf 27 0).events =
        [rd_event.shutdown CH_PROTOCOL_ERROR] ∧
      (ch_rd_read_step config now rconn buf 27 0).bytes_handled = -1 ∧
      (ch_rd_read_step config now rconn buf 27 0).conn.reader.pool =
        rconn.reader.pool ∧
      (ch_rd_read_step config now rconn buf 27 0).conn.reader.slot =
        rconn.reader.slot ∧
      (ch_rd_read_step config now rconn buf 27 0).conn.reader.state =
        CH_RD_WAIT) := by
  have hfull : rconn.reader.net_msg ++
      (buf.drop 0).take (CH_SR_WIRE_MESSAGE_SIZE - rconn.reader.bytes_read) =
      buf := by
    rw [hnet, hbr, List.drop_zero, List.nil_append]
    exact List.take_of_length_le (by rw [hlen]; decide)
  have hstep : ∀ err, ch_rd_verify_msg config wire = err → err ≠ CH_SUCCESS →
      (ch_rd_read_step config now rconn buf 27 0).events =
        [rd_event.shutdown err] ∧
      (ch_rd_read_step config now rconn buf 27 0).bytes_handled = -1 ∧
      (ch_rd_read_step config now rconn buf 27 0).conn.reader.pool =
        rconn.reader.pool ∧
      (ch_rd_read_step config now rconn buf 27 0).conn.reader.slot =
        rconn.reader.slot ∧
      (ch_rd_read_step config now rconn buf 27 0).conn.reader.state =
        CH_RD_WAIT := by
    intro err herr hne
    rw [show (27 : Nat) = CH_SR_WIRE_MESSAGE_SIZE from rfl]
    simp only [ch_rd_read_step, hstate]
    rw [if_neg (by simp [CH_SR_WIRE_MESSAGE_SIZE])]
    rw [if_pos (by simp [hbr, CH_SR_WIRE_MESSAGE_SIZE])]
    simp only [hfull, ← hwire, herr]
    rw [if_pos hne]
    exact ⟨rfl, rfl, rfl, rfl, rfl⟩
  constructor
  · intro hover
    have hv : ch_rd_verify_msg config wire = CH_ENOMEM := by
      simp only [ch_rd_verify_msg]
      rw [if_pos hover]
    exact ⟨hv, hstep CH_ENOMEM hv (by decide)⟩
  · intro hover hty hbad
    have hv : ch_rd_verify_msg config wire = CH_PROTOCOL_ERROR := by
      simp only [ch_rd_verify_msg]
      rw [if_neg hover]
      rw [if_pos hty]
      rcases hbad with hb | hb | hb
      · rw [if_pos (Or.inl hb)]
      · rw [if_pos (Or.inr hb)]
      · by_cases hhd : wire.header_len ≠ 0 ∨ wire.data_len ≠ 0
        · rw [if_pos hhd]
        · rw [if_neg hhd, if_pos hb]
    exact ⟨hv, hstep CH_PROTOCOL_ERROR hv (by decide)⟩

/-- Witness for `rd_verify_rejects`: a header announcing
`data_len = 2000` against `MAX_MSG_SIZE = 1024` is rejected with
`CH_ENOMEM` and the connection shut down. -/
theorem rd_verify_rejects_witness :
    ch_rd_verify_msg { MAX_MSG_SIZE := 1024 }
        (ch_sr_buf_to_msg
          (ch_sr_msg_to_buf { ch_msg_zero with data_len := 2000 } 0)
          ch_msg_zero) = CH_ENOMEM ∧
    (ch_rd_read_step { MAX_MSG_SIZE := 1024 } 0
        { reader := { state := CH_RD_WAIT } }
        (ch_sr_msg_to_buf { ch_msg_zero with data_len := 2000 } 0)
        27 0).events = [rd_event.shutdown CH_ENOMEM] := by
  have h := rd_verify_rejects { MAX_MSG_SIZE := 1024 } 0
    { reader := { state := CH_RD_WAIT } }
    (ch_sr_msg_to_buf { ch_msg_zero with data_len := 2000 } 0)
    (ch_sr_buf_to_msg
      (ch_sr_msg_to_buf { ch_msg_zero with data_len := 2000 } 0) ch_msg_zero)
    rfl rfl rfl rfl (by decide)
  have h1 := h.1 (by decide)
  exact ⟨h1.1, h1.2.1⟩

/-- C6 counterexample (to the claim as stated): an oversize wire header is
rejected with `CH_ENOMEM`, not with a protocol error. -/
theorem rd_verify_oversize_not_protocol_error :
    ch_rd_verify_msg { MAX_MSG_SIZE := 1024 }
        { ch_msg_zero with data_len := 2000 } = CH_ENOMEM ∧
    CH_ENOMEM ≠ CH_PROTOCOL_ERROR := by decide

/-- C7: On every user send, before the user's message is enqueued, the
probe logic runs: when `now - Remote.timestamp` exceeds
`1000 * REUSE_TIME / 4 * 3` milliseconds (¾ × REUSE_TIME) the remote's
reusable NOOP is enqueued on the control queue - unless it is in use
(`CH_MSG_USED`) or already enqueued (`_next != NULL`); a missing NOOP is
first allocated (fresh, so not in any queue - the membership hypothesis
models pointer freshness).  When the idle time does not exceed the bound,
no probe is enqueued and the remote is untouched.  The last conjunct shows
the probe and the user's data message land on their queues together inside
`ch_wr_send` (dispatcher frozen by a blocked connectionless remote). -/
theorem wr_probe_before_send (config : ch_config) (now : Nat)
    (alloc_ok : Bool) (remote : ch_remote) :
    (now - remote.timestamp > 1000 * config.REUSE_TIME / 4 * 3 →
      (∀ noop, remote.noop = some noop →
        (noop._flags &&& CH_MSG_USED = 0 ∧ noop ∉ remote.cntl_msg_queue →
          ch_wr_enqeue_probe_if_needed config now alloc_ok remote =
            { remote with
              cntl_msg_queue := ch_msg_enqueue remote.cntl_msg_queue noop }) ∧
        (¬ (noop._flags &&& CH_MSG_USED = 0 ∧ noop ∉ remote.cntl_msg_queue) →
          ch_wr_enqeue_probe_if_needed config now alloc_ok remote = remote)) ∧
      (remote.noop = none → alloc_ok = true →
        ({ ch_msg_zero with
            address := remote.address
            ip_protocol := remote.ip_protocol
            port := remote.port
            type := CH_MSG_NOOP } : ch_message) ∉ remote.cntl_msg_queue →
        ch_wr_enqeue_probe_if_needed config now alloc_ok remote =
          { remote with
            noop := some { ch_msg_zero with
              address := remote.address
              ip_protocol := remote.ip_protocol
              port := remote.port
              type := CH_MSG_NOOP }
            cntl_msg_queue := ch_msg_enqueue remote.cntl_msg_queue
              { ch_msg_zero with
                address := remote.address
                ip_protocol := remote.ip_protocol
                port := remote.port
                type := CH_MSG_NOOP } })) ∧
    (¬ now - remote.timestamp > 1000 * config.REUSE_TIME / 4 * 3 →
      ch_wr_enqeue_probe_if_needed config now alloc_ok remote = remote) ∧
    (∀ st msg is_, st.closing = false → st.config = config →
      ch_rm_find st.remotes msg = some remote →
      remote.conn = none → remote.conn_blocked = true →
      msg.type &&& CH_MSG_ACK = 0 → msg.type &&& CH_MSG_NOOP = 0 →
      ∀ noop, remote.noop = some noop →
      now - remote.timestamp > 1000 * config.REUSE_TIME / 4 * 3 →
      noop._flags &&& CH_MSG_USED = 0 → noop ∉ remote.cntl_msg_queue →
      (ch_wr_send st msg now alloc_ok is_).2.1.remotes =
        ch_rm_store st.remotes
          { remote with
            cntl_msg_queue := ch_msg_enqueue remote.cntl_msg_queue noop
            msg_queue := ch_msg_enqueue remote.msg_queue
              { msg with _flags := msg._flags ||| CH_MSG_USED } }) := by
  refine ⟨?_, ?_, ?_⟩
  · intro hcond
    constructor
    · intro noop hnoop
      constructor
      · intro hok
        simp [ch_wr_enqeue_probe_if_needed, hcond, hnoop, hok.1, hok.2]
      · intro hnok
        simp only [ch_wr_enqeue_probe_if_needed, if_pos hcond, hnoop]
        rw [if_neg hnok]
    · intro hnone halloc hfresh
      simp [ch_msg_zero] at hfresh
      simp [ch_wr_enqeue_probe_if_needed, hcond, hnone, halloc,
        ch_msg_zero, CH_MSG_USED]
      intro hmem
      exact absurd hmem hfresh
  · intro hcond
    simp [ch_wr_enqeue_probe_if_needed, hcond]
  · intro st msg is_ hcl hcfg hfind hrc hrb hta htn noop hnoop hcond hused hmem
    have hprobe : ch_wr_enqeue_probe_if_needed st.config now alloc_ok remote =
        { remote with
          cntl_msg_queue := ch_msg_enqueue remote.cntl_msg_queue noop } := by
      rw [hcfg]
      simp [ch_wr_enqeue_probe_if_needed, hcond, hnoop, hused, hmem]
    have hpq : ∀ r2 : ch_remote, r2.conn = none → r2.conn_blocked = true →
        ch_wr_process_queues st.config.SYNCHRONOUS alloc_ok r2 =
          (CH_BUSY, r2, []) := by
      intro r2 h1 h2
      simp [ch_wr_process_queues, h1, h2]
    simp only [ch_wr_send, hcl, Bool.false_eq_true, if_false, hfind]
    rw [if_neg (by simp)]
    simp only [hprobe]
    rw [if_neg (by simp [hta, htn])]
    rw [hpq _ (by simpa using hrc) (by simpa using hrb)]

/-- Witness for `wr_probe_before_send`: an idle remote with a fresh noop
enqueues the probe; a recently used remote does not. -/
theorem wr_probe_before_send_witness :
    ch_wr_enqeue_probe_if_needed { REUSE_TIME := 4 } 4000 true
        { timestamp := 0, noop := some { ch_msg_zero with type := CH_MSG_NOOP } } =
      { timestamp := 0, noop := some { ch_msg_zero with type := CH_MSG_NOOP },
        cntl_msg_queue := [{ ch_msg_zero with type := CH_MSG_NOOP }] } ∧
    ch_wr_enqeue_probe_if_needed { REUSE_TIME := 4 } 1000 true
        { timestamp := 0, noop := some { ch_msg_zero with type := CH_MSG_NOOP } } =
      { timestamp := 0, noop := some { ch_msg_zero with type := CH_MSG_NOOP } } := by
  have h1 := wr_probe_before_send { REUSE_TIME := 4 } 4000 true
    { timestamp := 0, noop := some { ch_msg_zero with type := CH_MSG_NOOP } }
  have h2 := wr_probe_before_send { REUSE_TIME := 4 } 1000 true
    { timestamp := 0, noop := some { ch_msg_zero with type := CH_MSG_NOOP } }
  constructor
  · have := ((h1.1 (by decide)).1 { ch_msg_zero with type := CH_MSG_NOOP } rfl).1
      (by decide)
    rw [this]
    rfl
  · exact h2.2.1 (by decide)
